import Mathlib

/-!
Shallow embedding of the `warm` surface/swapchain/render-graph code
(`src/surface/mod.rs`, `src/surface/swapchain_info.rs`, `src/surface/semaphore_pool.rs`,
`src/render_pass/mod.rs`, `src/render_pass/subpass.rs`, `src/utility.rs`).

Native Vulkan handles are modelled as `Nat`, with `0` standing for the null handle.
Native calls are modelled through explicit result oracles (environments) and the
state carries a log of the native calls made, so that claims about which native
calls happen (and in which order) can be stated.
-/

namespace Warm

/-- Vulkan result codes appearing in the modelled code paths (`ash::vk::Result`). -/
inductive VkResult where
  | success
  | suboptimalKHR
  | incomplete
  | timeout
  | errorSurfaceLostKHR
  | errorOutOfDateKHR
  | errorFormatNotSupported
  | errorOther (code : Nat)
  deriving DecidableEq, Repr

/-- Model of `SurfaceError` (src/surface/error.rs). -/
inductive SurfaceError where
  | unexpectedError (err : VkResult)
  | notSupported
  | lost
  | invalidConfig
  deriving DecidableEq, Repr

/-- Model of `PresentError` (src/surface/error.rs). -/
inductive PresentError where
  | unexpectedError (err : VkResult)
  | lost
  | outOfDate
  | timeout
  | swapchainRetired
  deriving DecidableEq, Repr

/-- Model of `RenderPassError` (src/render_pass/error.rs). -/
inductive RenderPassError where
  | unexpectedError (err : VkResult)
  | missingAttachment
  deriving DecidableEq, Repr

/-- Model of `vk_to_surface_err` (src/surface/mod.rs). -/
def vkToSurfaceErr : VkResult → SurfaceError
  | .errorSurfaceLostKHR => .lost
  | e => .unexpectedError e

/-- Model of `vk_to_present_err` (src/surface/mod.rs). -/
def vkToPresentErr : VkResult → PresentError
  | .errorSurfaceLostKHR => .lost
  | .errorOutOfDateKHR => .outOfDate
  | .timeout => .timeout
  | e => .unexpectedError e

/-- Model of `PresentMode` (src/surface/mod.rs). -/
inductive PresentMode where
  | immediate
  | mailbox
  | fifo
  | fifoRelaxed
  deriving DecidableEq, Repr

/-- Model of the `PresentModes` bitflag set (src/surface/mod.rs): one Bool per flag. -/
structure PresentModes where
  immediate : Bool
  mailbox : Bool
  fifo : Bool
  fifoRelaxed : Bool
  deriving DecidableEq, Repr

/-- Membership test for `PresentModes` (the bitflags `contains`). -/
def PresentModes.contains (s : PresentModes) : PresentMode → Bool
  | .immediate => s.immediate
  | .mailbox => s.mailbox
  | .fifo => s.fifo
  | .fifoRelaxed => s.fifoRelaxed

/-- The empty `PresentModes` set. -/
def PresentModes.empty : PresentModes := ⟨false, false, false, false⟩

/-- Inserts a mode into a `PresentModes` set (the bitflag or-insert used by `collect`). -/
def PresentModes.insert (s : PresentModes) : PresentMode → PresentModes
  | .immediate => { s with immediate := true }
  | .mailbox => { s with mailbox := true }
  | .fifo => { s with fifo := true }
  | .fifoRelaxed => { s with fifoRelaxed := true }

/-- Model of `SurfaceConfig` (src/surface/mod.rs). -/
structure SurfaceConfig where
  width : Nat
  height : Nat
  presentMode : PresentMode
  deriving DecidableEq, Repr

/-- Model of `SurfaceCapabilities` (src/surface/mod.rs). -/
structure SurfaceCapabilities where
  maxSize : Option (Nat × Nat)
  minSize : Nat × Nat
  presentModes : PresentModes
  deriving DecidableEq, Repr

/-- Model of `SurfaceCapabilities::is_size_valid` (src/surface/mod.rs). -/
def SurfaceCapabilities.isSizeValid (c : SurfaceCapabilities) (width height : Nat) : Bool :=
  if width < c.minSize.1 || height < c.minSize.2 then
    false
  else
    match c.maxSize with
    | some (maxWidth, maxHeight) =>
      if width > maxWidth || height > maxHeight then false else true
    | none => true

/-- Model of `SurfaceCapabilities::is_present_mode_valid` (src/surface/mod.rs). -/
def SurfaceCapabilities.isPresentModeValid (c : SurfaceCapabilities) (m : PresentMode) : Bool :=
  c.presentModes.contains m

/-- Model of `SurfaceCapabilities::is_config_valid` (src/surface/mod.rs). -/
def SurfaceCapabilities.isConfigValid (c : SurfaceCapabilities) (cfg : SurfaceConfig) : Bool :=
  decide (cfg.width > 0) && decide (cfg.height > 0)
    && c.isSizeValid cfg.width cfg.height
    && c.isPresentModeValid cfg.presentMode

/-- Model of `vk::CompositeAlphaFlagsKHR` single flags used by the code. -/
inductive CompositeAlpha where
  | opaqueAlpha
  | inherit
  | preMultiplied
  | postMultiplied
  deriving DecidableEq, Repr

/-- The subset of `vk::SurfaceCapabilitiesKHR` fields read by the modelled code. -/
structure VkSurfaceCaps where
  minImageCount : Nat
  maxImageCount : Nat
  minImageExtent : Nat × Nat
  maxImageExtent : Nat × Nat
  maxImageArrayLayers : Nat
  /-- whether `supported_usage_flags` contains `COLOR_ATTACHMENT` -/
  supportsColorAttachmentUsage : Bool
  /-- the set of supported composite-alpha modes -/
  supportedCompositeAlpha : List CompositeAlpha
  /-- whether `supported_transforms` contains `IDENTITY` -/
  supportsIdentityTransform : Bool
  /-- the raw `current_transform` value -/
  currentTransform : Nat
  deriving DecidableEq, Repr

/-- Raw value of `vk::SurfaceTransformFlagsKHR::IDENTITY`. -/
def vkIdentityTransform : Nat := 1

/-- Model of `get_min_image_count` (src/surface/swapchain_info.rs). -/
def getMinImageCount (caps : VkSurfaceCaps) : Nat :=
  if caps.minImageCount > 3 then
    caps.minImageCount
  else if caps.maxImageCount ≠ 0 && caps.maxImageCount < 3 then
    caps.maxImageCount
  else
    3

/-- Model of `sanitize_assumed_capabilities` (src/surface/swapchain_info.rs). -/
def sanitizeAssumedCapabilities (caps : VkSurfaceCaps) : Except SurfaceError Unit :=
  if caps.maxImageArrayLayers < 1 then
    .error .notSupported
  else if !caps.supportsColorAttachmentUsage then
    .error .notSupported
  else
    .ok ()

/-- Model of `get_composite_alpha` (src/surface/swapchain_info.rs): first supported
mode in the order of preference. -/
def getCompositeAlpha (caps : VkSurfaceCaps) : Except SurfaceError CompositeAlpha :=
  match [CompositeAlpha.opaqueAlpha, CompositeAlpha.inherit,
         CompositeAlpha.preMultiplied, CompositeAlpha.postMultiplied].find?
      (fun m => caps.supportedCompositeAlpha.contains m) with
  | some m => .ok m
  | none => .error .notSupported

/-- Model of `get_pre_transform` (src/surface/swapchain_info.rs). -/
def getPreTransform (caps : VkSurfaceCaps) : Nat :=
  if caps.supportsIdentityTransform then vkIdentityTransform else caps.currentTransform

/-- Raw value of `vk::Format::R8G8B8A8_UNORM`. -/
def vkFormatR8G8B8A8Unorm : Nat := 37

/-- Raw value of `vk::Format::B8G8R8A8_UNORM`. -/
def vkFormatB8G8R8A8Unorm : Nat := 44

/-- Raw value of `vk::ColorSpaceKHR::SRGB_NONLINEAR`. -/
def vkColorSpaceSrgbNonlinear : Nat := 0

/-- Model of `vk::SurfaceFormatKHR`. -/
structure VkSurfaceFormat where
  format : Nat
  colorSpace : Nat
  deriving DecidableEq, Repr

/-- The scoring closure inside `get_surface_format` (src/surface/swapchain_info.rs). -/
def surfaceFormatScore (sf : VkSurfaceFormat) : Nat :=
  (if sf.colorSpace = vkColorSpaceSrgbNonlinear then 100 else 0)
    + (if sf.format = vkFormatR8G8B8A8Unorm then 10
       else if sf.format = vkFormatB8G8R8A8Unorm then 10
       else 0)

/-- Semantics of Rust `Iterator::max_by_key`: the last element with maximal key. -/
def rustMaxByKey {α : Type} (key : α → Nat) (l : List α) : Option α :=
  l.foldl
    (fun acc x =>
      match acc with
      | none => some x
      | some m => if key m ≤ key x then some x else some m)
    none

/-- Model of `get_surface_format` (src/surface/swapchain_info.rs), given the list of
formats returned by the native query. The list is reversed before `max_by_key` so
that ties go to the earliest format of the original list. -/
def getSurfaceFormat (formats : List VkSurfaceFormat) : Except SurfaceError VkSurfaceFormat :=
  match rustMaxByKey surfaceFormatScore formats.reverse with
  | some sf => .ok sf
  | none => .error .notSupported

/-- Decoding of raw `vk::PresentModeKHR` values into `PresentMode` (the `filter_map`
inside `get_present_modes`). -/
def decodePresentMode : Nat → Option PresentMode
  | 0 => some .immediate
  | 1 => some .mailbox
  | 2 => some .fifo
  | 3 => some .fifoRelaxed
  | _ => none

/-- Model of `get_present_modes` (src/surface/swapchain_info.rs), given the raw list
returned by the native query. -/
def getPresentModes (modes : List Nat) : PresentModes :=
  modes.foldl
    (fun acc raw =>
      match decodePresentMode raw with
      | some m => acc.insert m
      | none => acc)
    PresentModes.empty

/-- Model of `SwapchainInfo` (src/surface/swapchain_info.rs). -/
structure SwapchainInfo where
  minImageCount : Nat
  compositeAlpha : CompositeAlpha
  preTransform : Nat
  format : Nat
  colorSpace : Nat
  presentModes : PresentModes
  deriving DecidableEq, Repr

/-- Results of the three native queries made by `swapchain_info::query`. -/
structure QueryEnv where
  capsResult : Except VkResult VkSurfaceCaps
  formatsResult : Except VkResult (List VkSurfaceFormat)
  presentModesResult : Except VkResult (List Nat)

/-- Model of `swapchain_info::query` (src/surface/swapchain_info.rs). Native errors of
the capability query are converted with the blanket `From` impl (always
`UnexpectedError`), as in `surface_caps`. -/
def querySwapchainInfo (env : QueryEnv) : Except SurfaceError SwapchainInfo := do
  let caps ← env.capsResult.mapError SurfaceError.unexpectedError
  let _ ← sanitizeAssumedCapabilities caps
  let minImageCount := getMinImageCount caps
  let compositeAlpha ← getCompositeAlpha caps
  let preTransform := getPreTransform caps
  let formats ← env.formatsResult.mapError SurfaceError.unexpectedError
  let surfaceFormat ← getSurfaceFormat formats
  let rawModes ← env.presentModesResult.mapError SurfaceError.unexpectedError
  let presentModes := getPresentModes rawModes
  pure
    { minImageCount, compositeAlpha, preTransform,
      format := surfaceFormat.format, colorSpace := surfaceFormat.colorSpace, presentModes }

/-- One native call made by the `Surface` code, recorded in order in the model's log.
Handles are `Nat`s; `0` is the null handle. -/
inductive SurfCall where
  | getSurfaceCapabilities
  | createSwapchain (oldSwapchain : Nat) (width height : Nat)
      (presentMode : PresentMode) (minImageCount : Nat)
  | destroySwapchain (handle : Nat)
  | getSwapchainImages (handle : Nat)
  | createSemaphore
  | acquireNextImage (swapchain : Nat) (semaphore : Nat)
  | queuePresent (swapchain : Nat) (imageIndex : Nat) (waitSemaphores : List Nat)
  deriving DecidableEq, Repr

/-- The swapchain handles destroyed so far, extracted from a call log. -/
def destroyedSwapchains (calls : List SurfCall) : List Nat :=
  calls.filterMap
    (fun c =>
      match c with
      | .destroySwapchain h => some h
      | _ => none)

/-- Model of `Surface` (src/surface/mod.rs), extended with a fresh-handle allocator
and a log of the native calls made (both model bookkeeping, not program state). -/
structure Surface where
  /-- the current swapchain handle; `0` encodes `vk::SwapchainKHR::null()` (retired) -/
  swapchain : Nat
  /-- the images of the current swapchain -/
  images : List Nat
  /-- the semaphore pool free list (head is the top of the `Vec` stack) -/
  semaphorePool : List Nat
  /-- the capability snapshot queried at surface creation -/
  info : SwapchainInfo
  /-- the stored configuration -/
  config : SurfaceConfig
  /-- the reusable present-wait semaphore list -/
  presentWaitSemaphores : List Nat
  /-- model: fresh native handles are `nextHandle + 1`, `nextHandle + 2`, ... -/
  nextHandle : Nat
  /-- model: the native calls made so far, in order -/
  calls : List SurfCall
  deriving DecidableEq, Repr

/-- Model of `Surface::is_swapchain_valid` (src/surface/mod.rs). -/
def Surface.isSwapchainValid (s : Surface) : Bool :=
  decide (s.swapchain ≠ 0)

/-- Allocates a fresh (nonzero) native handle in the model. -/
def Surface.alloc (s : Surface) : Nat × Surface :=
  (s.nextHandle + 1, { s with nextHandle := s.nextHandle + 1 })

/-- Model of `get_surface_capabilities` (src/surface/mod.rs): performs the native
query (logging it) and translates the error with `vk_to_surface_err`. -/
def getSurfaceCapabilitiesCall (res : Except VkResult VkSurfaceCaps) (s : Surface) :
    Except SurfaceError VkSurfaceCaps × Surface :=
  (res.mapError vkToSurfaceErr, { s with calls := s.calls ++ [.getSurfaceCapabilities] })

/-- The `SurfaceCapabilities` value that `Surface::capabilities` builds from the
live native capabilities and the cached snapshot: `max_size` is `None` when either
live max-extent component is zero; the present modes come from the snapshot. -/
def liveSurfaceCaps (caps : VkSurfaceCaps) (s : Surface) : SurfaceCapabilities :=
  { maxSize :=
      if caps.maxImageExtent.1 = 0 || caps.maxImageExtent.2 = 0 then none
      else some (caps.maxImageExtent.1, caps.maxImageExtent.2),
    minSize := (caps.minImageExtent.1, caps.minImageExtent.2),
    presentModes := s.info.presentModes }

/-- Model of `Surface::capabilities` (src/surface/mod.rs): queries the live min/max
extent bounds and combines them with the cached present-mode snapshot. `res` is the
outcome of the native `get_physical_device_surface_capabilities` call. -/
def Surface.capabilities (res : Except VkResult VkSurfaceCaps) (s : Surface) :
    Except SurfaceError SurfaceCapabilities × Surface :=
  match getSurfaceCapabilitiesCall res s with
  | (.error e, s) => (.error e, s)
  | (.ok caps, s) => (.ok (liveSurfaceCaps caps s), s)

/-- Outcomes of the native calls that `Surface::configure` can make. -/
structure ConfigureEnv where
  /-- outcome of the live capability query made by the validation step -/
  capsResult : Except VkResult VkSurfaceCaps
  /-- outcome of `vkCreateSwapchainKHR`; on `ok` a fresh handle is produced -/
  createSwapchainResult : Except VkResult Unit
  /-- outcome of `vkGetSwapchainImagesKHR` -/
  getImagesResult : Except VkResult (List Nat)
  deriving Repr

/-- Model of the free function `create_swapchain` (src/surface/mod.rs): issues the
native creation call, passing `oldSwapchain` as the reuse hint in the create info. -/
def createSwapchain (env : ConfigureEnv) (info : SwapchainInfo) (cfg : SurfaceConfig)
    (oldSwapchain : Nat) (s : Surface) : Except SurfaceError Nat × Surface :=
  let s :=
    { s with
      calls := s.calls ++
        [.createSwapchain oldSwapchain cfg.width cfg.height cfg.presentMode
          info.minImageCount] }
  match env.createSwapchainResult with
  | .error e => (.error (vkToSurfaceErr e), s)
  | .ok () =>
    let (h, s) := s.alloc
    (.ok h, s)

/-- Model of `Surface::configure_unchecked` (src/surface/mod.rs): takes the old
swapchain handle out (leaving null), creates the new swapchain with the old handle
as hint, queries the image list, and installs the new swapchain. On a native
failure the surface is left retired (`swapchain = 0`); a scope guard destroys the
new swapchain if the image query fails. The old swapchain handle is never passed to
`destroy_swapchain` on this path. -/
def Surface.configureUnchecked (env : ConfigureEnv) (cfg : SurfaceConfig) (s : Surface) :
    Except SurfaceError Unit × Surface :=
  let oldSwapchain := s.swapchain
  let s := { s with swapchain := 0, images := [] }
  match createSwapchain env s.info cfg oldSwapchain s with
  | (.error e, s) => (.error e, s)
  | (.ok newSwapchain, s) =>
    let s := { s with calls := s.calls ++ [SurfCall.getSwapchainImages newSwapchain] }
    match env.getImagesResult with
    | .error e =>
      (.error (vkToSurfaceErr e),
       { s with calls := s.calls ++ [SurfCall.destroySwapchain newSwapchain] })
    | .ok imgs =>
      (.ok (), { s with swapchain := newSwapchain, images := imgs, config := cfg })

/-- Model of `Surface::configure` (src/surface/mod.rs): validates the configuration
against `capabilities()` and delegates to `configure_unchecked`. -/
def Surface.configure (env : ConfigureEnv) (cfg : SurfaceConfig) (s : Surface) :
    Except SurfaceError Unit × Surface :=
  match Surface.capabilities env.capsResult s with
  | (.error e, s) => (.error e, s)
  | (.ok caps, s) =>
    if !caps.isConfigValid cfg then (.error .invalidConfig, s)
    else Surface.configureUnchecked env cfg s

/-- Outcomes of the native calls that `Surface::present` can make. -/
structure PresentEnv where
  /-- outcome of `vkCreateSemaphore` when the pool is empty -/
  createSemaphoreResult : Except VkResult Unit
  /-- outcome of `vkAcquireNextImageKHR`: the acquired image index -/
  acquireResult : Except VkResult Nat
  /-- outcome of `SurfaceContents::render`: the semaphores the contents pushes to
  the present-wait list -/
  renderResult : Except VkResult (List Nat)
  /-- outcome of `vkQueuePresentKHR` -/
  queuePresentResult : Except VkResult Unit
  deriving Repr

/-- Model of `SemaphorePool::get` (src/surface/semaphore_pool.rs): pops a pooled
semaphore or creates a fresh one. -/
def semaphorePoolGet (env : PresentEnv) (s : Surface) : Except VkResult Nat × Surface :=
  match s.semaphorePool with
  | sem :: rest => (.ok sem, { s with semaphorePool := rest })
  | [] =>
    let s := { s with calls := s.calls ++ [.createSemaphore] }
    match env.createSemaphoreResult with
    | .error e => (.error e, s)
    | .ok () =>
      let (h, s) := s.alloc
      (.ok h, s)

/-- Model of `Surface::present` (src/surface/mod.rs). The retired check comes first:
when the swapchain is null the call returns `SwapchainRetired` with the state
untouched (no semaphore checkout, no native call). Otherwise a semaphore is checked
out of the pool, the next image is acquired, the contents render, and the present
call is issued; the `SemaphoreInPool` guard gives the acquire semaphore back to the
pool on every exit path past the checkout. -/
def Surface.present (env : PresentEnv) (s : Surface) : Except PresentError Unit × Surface :=
  if s.swapchain = 0 then
    (.error .swapchainRetired, s)
  else
    match semaphorePoolGet env s with
    | (.error e, s) => (.error (.unexpectedError e), s)
    | (.ok acquireSemaphore, s) =>
      let giveBack := fun (s : Surface) =>
        { s with semaphorePool := acquireSemaphore :: s.semaphorePool }
      let s := { s with calls := s.calls ++ [.acquireNextImage s.swapchain acquireSemaphore] }
      match env.acquireResult with
      | .error e => (.error (vkToPresentErr e), giveBack s)
      | .ok imageIndex =>
        let s := { s with presentWaitSemaphores := [] }
        match env.renderResult with
        | .error e => (.error (.unexpectedError e), giveBack s)
        | .ok pushed =>
          let s := { s with presentWaitSemaphores := pushed }
          let s :=
            { s with
              calls := s.calls ++ [.queuePresent s.swapchain imageIndex pushed] }
          match env.queuePresentResult with
          | .error e => (.error (vkToPresentErr e), giveBack s)
          | .ok () => (.ok (), giveBack s)

/-- Model of Rust `Iterator::position`: the index of the first element satisfying
the predicate. -/
def listPosition {α : Type} (p : α → Bool) : List α → Option Nat
  | [] => none
  | x :: xs => if p x then some 0 else (listPosition p xs).map (· + 1)

/-- Model of `std::any::TypeId`: an abstract tag identifying an attachment type. -/
abbrev TypeId := Nat

/-- Model of `vk::AttachmentDescription`: an abstract payload. The builder only
stores descriptions and copies them into the final create info; it never inspects
their fields, so the payload is left abstract. -/
abbrev AttachmentDescription := Nat

/-- Model of `vk::AttachmentReference`. -/
structure AttachmentReference where
  attachment : Nat
  layout : Nat
  deriving DecidableEq, Repr

/-- Raw value of `vk::ImageLayout::COLOR_ATTACHMENT_OPTIMAL`. -/
def vkLayoutColorAttachmentOptimal : Nat := 2

/-- Model of `SubpassDescription` (src/render_pass/subpass.rs): the relative-offset
form a subpass returns from `register`. The `first_*` fields are offsets into the
builder's reference/attachment lists; the depth/stencil offset is optional (the
Rust stores `usize::MAX` as the absent sentinel in the pointer field). -/
structure SubpassDescription where
  firstInputAttachment : Nat
  inputAttachmentCount : Nat
  firstColorAttachment : Nat
  colorAttachmentCount : Nat
  depthStencilAttachment : Option Nat
  firstPreserveAttachment : Nat
  preserveAttachmentCount : Nat
  deriving DecidableEq, Repr

/-- Model of `vk::SubpassDependency`: an abstract payload (the code never pushes
a dependency, so the list stays empty). -/
abbrev SubpassDependency := Nat

/-- Model of `RenderPassBuilder` (src/render_pass/mod.rs). -/
structure RenderPassBuilder where
  attachmentDescs : List AttachmentDescription
  attachmentIds : List TypeId
  attachmentRefs : List AttachmentReference
  attachments : List Nat
  /-- subpass descriptions stored in raw (relative-offset) form, as
  `register_subpass` keeps the offsets in the pointer fields until `build` -/
  subpassDescs : List SubpassDescription
  dependencies : List SubpassDependency
  deriving DecidableEq, Repr

/-- Model of `RenderPassBuilder::default()`. -/
def RenderPassBuilder.empty : RenderPassBuilder := ⟨[], [], [], [], [], []⟩

/-- Model of `RenderPassBuilder::register_attachment` (src/render_pass/mod.rs):
pushes the attachment description and the attachment type tag. The in-repo
`Attachment` implementation (`OutputAttachment::description`) never fails, so the
model is infallible. -/
def RenderPassBuilder.registerAttachment (b : RenderPassBuilder) (id : TypeId)
    (desc : AttachmentDescription) : RenderPassBuilder :=
  { b with
    attachmentDescs := b.attachmentDescs ++ [desc],
    attachmentIds := b.attachmentIds ++ [id] }

/-- Model of `RenderPassBuilder::_request_attachment_ref` (src/render_pass/mod.rs):
resolves the type tag to the first matching registration index, pushes an
attachment reference, and returns its index in the reference list. -/
def RenderPassBuilder.requestAttachmentRef (b : RenderPassBuilder) (id : TypeId)
    (layout : Nat) : Option (Nat × RenderPassBuilder) :=
  match listPosition (fun i => i = id) b.attachmentIds with
  | none => none
  | some idx =>
    let ref : AttachmentReference := { attachment := idx, layout }
    some (b.attachmentRefs.length, { b with attachmentRefs := b.attachmentRefs ++ [ref] })

/-- Model of `RenderPassBuilder::_request_attachment` (src/render_pass/mod.rs). -/
def RenderPassBuilder.requestAttachment (b : RenderPassBuilder) (id : TypeId) :
    Option (Nat × RenderPassBuilder) :=
  match listPosition (fun i => i = id) b.attachmentIds with
  | none => none
  | some idx =>
    some (b.attachments.length, { b with attachments := b.attachments ++ [idx] })

/-- A subpass modelled by the attachment types (and layouts) it requests as color
attachments, following the registration pattern of `EmptySubpass`
(src/render_pass/subpass.rs): one `request_attachment_ref` call per needed type,
surfacing `MissingAttachment` when a request fails. `EmptySubpass` is the instance
with the single request `(OutputAttachment, COLOR_ATTACHMENT_OPTIMAL)`. -/
structure SubpassModel where
  colorRequests : List (TypeId × Nat)
  deriving DecidableEq, Repr

/-- Requests every color attachment reference of a subpass in order, returning the
builder extended by the pushed references, or `MissingAttachment`. -/
def requestColorRefs : List (TypeId × Nat) → RenderPassBuilder →
    Except RenderPassError RenderPassBuilder
  | [], b => .ok b
  | req :: rest, b =>
    match b.requestAttachmentRef req.1 req.2 with
    | none => .error .missingAttachment
    | some (_, b) => requestColorRefs rest b

/-- Model of `Subpass::register` for a `SubpassModel`: requests the references and
returns the relative-offset `SubpassDescription`, exactly as `EmptySubpass`
does (the first color attachment offset is the reference-list index returned by
the first request, i.e. the reference-list length before the requests). -/
def SubpassModel.register (sp : SubpassModel) (b : RenderPassBuilder) :
    Except RenderPassError (SubpassDescription × RenderPassBuilder) :=
  let first := b.attachmentRefs.length
  match requestColorRefs sp.colorRequests b with
  | .error e => .error e
  | .ok b =>
    .ok
      ({ firstInputAttachment := 0, inputAttachmentCount := 0,
         firstColorAttachment := first, colorAttachmentCount := sp.colorRequests.length,
         depthStencilAttachment := none, firstPreserveAttachment := 0,
         preserveAttachmentCount := 0 }, b)

/-- Model of `RenderPassBuilder::register_subpass` (src/render_pass/mod.rs): runs the
subpass registration and stores the returned description (in raw offset form). -/
def RenderPassBuilder.registerSubpass (b : RenderPassBuilder) (sp : SubpassModel) :
    Except RenderPassError RenderPassBuilder :=
  match sp.register b with
  | .error e => .error e
  | .ok (desc, b) => .ok { b with subpassDescs := b.subpassDescs ++ [desc] }

/-- A subpass description after `build` patched the relative offsets: the pointer
`base + offset` with count `n` denotes the sublist of `n` references starting at
`offset`; a null pointer denotes the empty list / absent reference. -/
structure BuiltSubpass where
  inputAttachments : List AttachmentReference
  colorAttachments : List AttachmentReference
  depthStencilAttachment : Option AttachmentReference
  preserveAttachments : List Nat
  deriving DecidableEq, Repr

/-- Model of `vk::RenderPassCreateInfo` as produced by `build`. -/
structure RenderPassCreateInfo where
  attachments : List AttachmentDescription
  subpasses : List BuiltSubpass
  dependencies : List SubpassDependency
  deriving DecidableEq, Repr

/-- The offset-patching step of `RenderPassBuilder::build` (src/render_pass/mod.rs)
for one subpass description: each stored relative offset is turned into the actual
position in the final contiguous reference/attachment-index arrays. -/
def patchSubpass (refs : List AttachmentReference) (atts : List Nat)
    (d : SubpassDescription) : BuiltSubpass :=
  { colorAttachments :=
      if d.colorAttachmentCount > 0 then
        (refs.drop d.firstColorAttachment).take d.colorAttachmentCount
      else [],
    inputAttachments :=
      if d.inputAttachmentCount > 0 then
        (refs.drop d.firstInputAttachment).take d.inputAttachmentCount
      else [],
    depthStencilAttachment := d.depthStencilAttachment.bind (fun i => refs[i]?),
    preserveAttachments :=
      if d.preserveAttachmentCount > 0 then
        (atts.drop d.firstPreserveAttachment).take d.preserveAttachmentCount
      else [] }

/-- Model of `RenderPassBuilder::build` (src/render_pass/mod.rs). -/
def RenderPassBuilder.build (b : RenderPassBuilder) : RenderPassCreateInfo :=
  { attachments := b.attachmentDescs,
    subpasses := b.subpassDescs.map (patchSubpass b.attachmentRefs b.attachments),
    dependencies := b.dependencies }

/-- Registers a list of attachments in declaration order (the `AttachmentList`
`register` impls, src/render_pass/attachment.rs). -/
def registerAttachmentList (atts : List (TypeId × AttachmentDescription))
    (b : RenderPassBuilder) : RenderPassBuilder :=
  atts.foldl (fun b a => b.registerAttachment a.1 a.2) b

/-- Registers a list of subpasses in declaration order (the `SubpassList`
`register` impls, src/render_pass/subpass.rs). -/
def registerSubpassList (subs : List SubpassModel) (b : RenderPassBuilder) :
    Except RenderPassError RenderPassBuilder :=
  match subs with
  | [] => .ok b
  | sp :: rest =>
    match b.registerSubpass sp with
    | .error e => .error e
    | .ok b => registerSubpassList rest b

/-- Outcomes of the native calls made by `RenderPass::new`. -/
structure RenderPassNewEnv where
  createRenderPassResult : Except VkResult Unit
  createCommandPoolResult : Except VkResult Unit
  deriving Repr

/-- Model of `RenderPass::new` (src/render_pass/mod.rs): registers attachments and
subpasses with a fresh builder, builds the create info, then creates the native
render pass and the command pool. The second component records whether the native
`create_render_pass` call was made. -/
def renderPassNew (env : RenderPassNewEnv) (atts : List (TypeId × AttachmentDescription))
    (subs : List SubpassModel) : Except RenderPassError RenderPassCreateInfo × Bool :=
  let b := registerAttachmentList atts RenderPassBuilder.empty
  match registerSubpassList subs b with
  | .error e => (.error e, false)
  | .ok b =>
    let info := b.build
    match env.createRenderPassResult with
    | .error e => (.error (.unexpectedError e), true)
    | .ok () =>
      match env.createCommandPoolResult with
      | .error e => (.error (.unexpectedError e), true)
      | .ok () => (.ok info, true)

/-- Model of `ImagesInfo` (src/surface/surface_contents.rs). -/
structure ImagesInfo where
  images : List Nat
  width : Nat
  height : Nat
  format : Nat
  deriving DecidableEq, Repr

/-- Model of `OutputInfo` (src/render_pass/mod.rs). -/
structure OutputInfo where
  width : Nat
  height : Nat
  format : Nat
  deriving DecidableEq, Repr

/-- Kinds of native handles tracked by the frame-renderer model's release log. -/
inductive ResKind where
  | fence
  | semaphore
  | commandBuffer
  | framebuffer
  | imageView
  deriving DecidableEq, Repr

/-- Model of `PerFrame` (src/render_pass/mod.rs). `framebuffer = 0` encodes
`vk::Framebuffer::null()`. The `fenceCreatedSignaled` flag records, as model
bookkeeping, that the fence was created with the `SIGNALED` create flag. -/
structure PerFrame where
  framebuffer : Nat
  commandBuffer : Nat
  fence : Nat
  semaphore : Nat
  fenceCreatedSignaled : Bool
  deriving DecidableEq, Repr

/-- Model of the `RenderPass` frame state (src/render_pass/mod.rs), together with
the model bookkeeping: a fresh-handle allocator, a counter of native creation
calls (consulted by the failure oracle), a log of released handles, and a log of
the fences waited on. The attachment list is modelled as the canonical single
`OutputAttachment` (src/render_pass/attachment.rs), whose image views are
`outputViews` and whose bound format is `attachmentFormat`. -/
structure RPState where
  perFrame : List PerFrame
  outputInfo : OutputInfo
  outputViews : List Nat
  attachmentFormat : Nat
  nextHandle : Nat
  callIdx : Nat
  released : List (ResKind × Nat)
  fenceWaits : List Nat
  deriving DecidableEq, Repr

/-- Failure oracle for native creation calls made by the frame renderer: whether
the nth creation call succeeds. -/
structure RPEnv where
  createOk : Nat → Bool

/-- One native creation call: consults the oracle and, on success, allocates a
fresh (nonzero) handle. -/
def rpCreate (env : RPEnv) (s : RPState) : Except VkResult Nat × RPState :=
  if env.createOk s.callIdx then
    (.ok (s.nextHandle + 1),
     { s with callIdx := s.callIdx + 1, nextHandle := s.nextHandle + 1 })
  else
    (.error (.errorOther 0), { s with callIdx := s.callIdx + 1 })

/-- Records the destruction (or freeing) of a native handle. -/
def rpRelease (k : ResKind) (h : Nat) (s : RPState) : RPState :=
  { s with released := s.released ++ [(k, h)] }

/-- Model of `PerFrame::new` (src/render_pass/mod.rs): creates the fence (with
`signaled = true`), the semaphore, and the command buffer, in that order; on a
failure the scope guards destroy the already created handles in reverse creation
order. The framebuffer starts out null. -/
def PerFrame.new (env : RPEnv) (s : RPState) : Except VkResult PerFrame × RPState :=
  match rpCreate env s with
  | (.error e, s) => (.error e, s)
  | (.ok fence, s) =>
    match rpCreate env s with
    | (.error e, s) => (.error e, rpRelease .fence fence s)
    | (.ok semaphore, s) =>
      match rpCreate env s with
      | (.error e, s) =>
        (.error e, rpRelease .fence fence (rpRelease .semaphore semaphore s))
      | (.ok commandBuffer, s) =>
        (.ok
          { framebuffer := 0, commandBuffer, fence, semaphore,
            fenceCreatedSignaled := true }, s)

/-- Model of `PerFrame::destroy` (src/render_pass/mod.rs): destroys the framebuffer
when present, then the fence, the semaphore, and frees the command buffer. -/
def PerFrame.destroy (pf : PerFrame) (s : RPState) : RPState :=
  let s := if pf.framebuffer ≠ 0 then rpRelease .framebuffer pf.framebuffer s else s
  let s := rpRelease .fence pf.fence s
  let s := rpRelease .semaphore pf.semaphore s
  rpRelease .commandBuffer pf.commandBuffer s

/-- Model of `PerFrame::place_framebuffer` (src/render_pass/mod.rs): creates a
framebuffer from the attachments' current views and stores it. On failure the
frame is left unchanged (the field assignment never happens). -/
def PerFrame.placeFramebuffer (env : RPEnv) (pf : PerFrame) (s : RPState) :
    Except VkResult PerFrame × RPState :=
  match rpCreate env s with
  | (.error e, s) => (.error e, s)
  | (.ok fb, s) => (.ok { pf with framebuffer := fb }, s)

/-- Model of `OutputAttachment::notify_output_changed` (src/render_pass/attachment.rs):
rejects a format mismatch, then creates one image view per image, pushing each onto
the attachment's view list (views created before a failure stay pushed). -/
def outputCreateViews (env : RPEnv) : List Nat → RPState → Except VkResult Unit × RPState
  | [], s => (.ok (), s)
  | _ :: rest, s =>
    match rpCreate env s with
    | (.error e, s) => (.error e, s)
    | (.ok v, s) => outputCreateViews env rest { s with outputViews := s.outputViews ++ [v] }

/-- Model of `AttachmentList::notify_output_changed` for the `OutputAttachment`
instance. -/
def outputNotifyChanged (env : RPEnv) (info : ImagesInfo) (s : RPState) :
    Except VkResult Unit × RPState :=
  if info.format ≠ s.attachmentFormat then
    (.error .errorFormatNotSupported, s)
  else
    outputCreateViews env info.images s

/-- Model of `OutputAttachment::notify_destroying_output`
(src/render_pass/attachment.rs): destroys and drains every view. -/
def outputNotifyDestroying (s : RPState) : RPState :=
  let s := s.outputViews.foldl (fun s v => rpRelease .imageView v s) s
  { s with outputViews := [] }

/-- The framebuffer-restoring loop at the end of `notify_new_images`
(src/render_pass/mod.rs): rebuilds each frame's framebuffer in index order. On a
failure the remaining frames are left as they were (the loop updated in place). -/
def rebuildFramebuffers (env : RPEnv) : List PerFrame → RPState →
    Except VkResult Unit × List PerFrame × RPState
  | [], s => (.ok (), [], s)
  | pf :: rest, s =>
    match PerFrame.placeFramebuffer env pf s with
    | (.error e, s) => (.error e, pf :: rest, s)
    | (.ok pf, s) =>
      match rebuildFramebuffers env rest s with
      | (r, rest, s) => (r, pf :: rest, s)

/-- The per-frame growth loop of `notify_new_images` (src/render_pass/mod.rs):
creates and pushes `n` new `PerFrame` records (records pushed before a failure
stay pushed). -/
def growPerFrame (env : RPEnv) : Nat → RPState → Except VkResult Unit × RPState
  | 0, s => (.ok (), s)
  | n + 1, s =>
    match PerFrame.new env s with
    | (.error e, s) => (.error e, s)
    | (.ok pf, s) => growPerFrame env n { s with perFrame := s.perFrame ++ [pf] }

/-- The resizing step of `notify_new_images` (src/render_pass/mod.rs): compares the
new image count with the current per-frame count; shrinking drains and destroys
the excess records, growing creates fresh ones. -/
def resizePerFrame (env : RPEnv) (newLen : Nat) (s : RPState) :
    Except VkResult Unit × RPState :=
  if newLen < s.perFrame.length then
    (.ok (),
     (s.perFrame.drop newLen).foldl (fun s2 pf => pf.destroy s2)
       { s with perFrame := s.perFrame.take newLen })
  else if newLen = s.perFrame.length then
    (.ok (), s)
  else
    growPerFrame env (newLen - s.perFrame.length) s

/-- Model of `RenderPass::notify_new_images` (src/render_pass/mod.rs): stores the
output info, resizes the per-frame vector, notifies the attachments, then rebuilds
one framebuffer per frame index. -/
def notifyNewImages (env : RPEnv) (info : ImagesInfo) (s : RPState) :
    Except VkResult Unit × RPState :=
  match resizePerFrame env info.images.length
      { s with
        outputInfo := { width := info.width, height := info.height, format := info.format } } with
  | (.error e, s) => (.error e, s)
  | (.ok (), s) =>
    match outputNotifyChanged env info s with
    | (.error e, s) => (.error e, s)
    | (.ok (), s) =>
      match rebuildFramebuffers env s.perFrame s with
      | (r, pfs, s) => (r, { s with perFrame := pfs })

/-- Model of `RenderPass::notify_destroy_images` (src/render_pass/mod.rs): waits on
every frame's fence (the result is ignored), tells the attachments to release
their views, then removes (destroys and nulls) every frame's framebuffer. -/
def notifyDestroyImages (s : RPState) : RPState :=
  let s := s.perFrame.foldl (fun s pf => { s with fenceWaits := s.fenceWaits ++ [pf.fence] }) s
  let s := outputNotifyDestroying s
  let s := s.perFrame.foldl (fun s2 pf => rpRelease .framebuffer pf.framebuffer s2) s
  { s with perFrame := s.perFrame.map (fun pf => { pf with framebuffer := 0 }) }

/-- One iteration's worth of native responses for the variable-length query helper
`read_into_vector` (src/utility.rs). Each loop iteration makes two calls: a count
query (null data pointer) and a data read; `count` is the value written by the
count query, `dataCount` the (in/out) count value after the data read, and `data`
the items written by it. -/
structure IterResponse (α : Type) where
  countResult : VkResult
  count : Nat
  dataResult : VkResult
  dataCount : Nat
  data : List α
  deriving Repr

/-- The retry loop of `read_into_vector` (src/utility.rs), with the native behavior
given as a response per iteration (`iter k` is the k-th iteration's responses) and
an explicit fuel bound; `none` means the fuel ran out before the loop exited. The
payload is `some (count, data)` exactly on `SUCCESS`, the values `assume_init`
consumes. -/
def readIntoVectorAux {α : Type} (iter : Nat → IterResponse α) (k : Nat) :
    Nat → Option (VkResult × Option (Nat × List α))
  | 0 => none
  | fuel + 1 =>
    let r := iter k
    if r.countResult ≠ .success then
      some (r.countResult, none)
    else
      match r.dataResult with
      | .success => some (.success, some (r.dataCount, r.data))
      | .incomplete => readIntoVectorAux iter (k + 1) fuel
      | e => some (e, none)

/-- Model of `read_into_vector` (src/utility.rs): runs the retry loop from the
first iteration and, on success, appends the finally read items (the first
`count` of them, which `assume_init` marks initialized) to the container. -/
def readIntoVector {α : Type} (iter : Nat → IterResponse α) (container : List α)
    (fuel : Nat) : Option (VkResult × List α) :=
  match readIntoVectorAux iter 0 fuel with
  | none => none
  | some (res, none) => some (res, container)
  | some (res, some (c, data)) => some (res, container ++ data.take c)

/-- Modelled native driver for a variable-length query, following the contract
documented on `read_into_vector` (src/utility.rs): the device has a time-varying
true element count; calls are indexed globally (iteration k makes the count query
at time 2k and the data read at time 2k+1). A data read with enough capacity
returns `SUCCESS` and writes the true count; one with too little capacity returns
`INCOMPLETE`. -/
structure QueryDriver (α : Type) where
  trueCount : Nat → Nat
  items : Nat → List α

/-- The iteration responses produced by a `QueryDriver`. -/
def driverIter {α : Type} (d : QueryDriver α) (k : Nat) : IterResponse α :=
  let cap := d.trueCount (2 * k)
  let avail := d.trueCount (2 * k + 1)
  if avail ≤ cap then
    { countResult := .success, count := cap, dataResult := .success,
      dataCount := avail, data := (d.items (2 * k + 1)).take avail }
  else
    { countResult := .success, count := cap, dataResult := .incomplete,
      dataCount := cap, data := (d.items (2 * k + 1)).take cap }

/-- A concrete native capability snapshot used for evaluating the model. -/
def sampleCaps : VkSurfaceCaps :=
  { minImageCount := 2, maxImageCount := 8, minImageExtent := (1, 1),
    maxImageExtent := (4096, 4096), maxImageArrayLayers := 1,
    supportsColorAttachmentUsage := true,
    supportedCompositeAlpha := [.opaqueAlpha],
    supportsIdentityTransform := true, currentTransform := 1 }

/-- A concrete native capability snapshot with zero array layers and no
color-attachment usage support. -/
def zeroLayerCaps : VkSurfaceCaps :=
  { minImageCount := 2, maxImageCount := 0, minImageExtent := (1, 1),
    maxImageExtent := (100, 100), maxImageArrayLayers := 0,
    supportsColorAttachmentUsage := false,
    supportedCompositeAlpha := [],
    supportsIdentityTransform := true, currentTransform := 1 }

/-- A concrete present-mode set supporting only FIFO. -/
def sampleModes : PresentModes := ⟨false, false, true, false⟩

/-- A concrete swapchain-info snapshot. -/
def sampleInfo : SwapchainInfo :=
  { minImageCount := 3, compositeAlpha := .opaqueAlpha, preTransform := 1,
    format := vkFormatB8G8R8A8Unorm, colorSpace := vkColorSpaceSrgbNonlinear,
    presentModes := sampleModes }

/-- A concrete configured surface state (live swapchain handle 5). -/
def sampleSurface : Surface :=
  { swapchain := 5, images := [11, 12, 13], semaphorePool := [],
    info := sampleInfo, config := ⟨800, 600, .fifo⟩,
    presentWaitSemaphores := [], nextHandle := 100, calls := [] }

/-- A concrete valid surface configuration. -/
def sampleCfg : SurfaceConfig := ⟨800, 600, .fifo⟩

/-- A present environment in which every native call succeeds. -/
def samplePresentEnv : PresentEnv :=
  { createSemaphoreResult := .ok (), acquireResult := .ok 0,
    renderResult := .ok [41], queuePresentResult := .ok () }

/-- A configure environment whose native swapchain creation fails. -/
def failCreateEnv : ConfigureEnv :=
  { capsResult := .ok sampleCaps, createSwapchainResult := .error (.errorOther 3),
    getImagesResult := .ok [] }

/-- A configure environment in which every native call succeeds. -/
def okConfigureEnv : ConfigureEnv :=
  { capsResult := .ok sampleCaps, createSwapchainResult := .ok (),
    getImagesResult := .ok [21, 22, 23] }

/-- A render-pass-creation environment in which every native call succeeds. -/
def okRenderPassNewEnv : RenderPassNewEnv :=
  { createRenderPassResult := .ok (), createCommandPoolResult := .ok () }

/-- A frame-renderer environment in which every native creation call succeeds. -/
def okRPEnv : RPEnv := { createOk := fun _ => true }

/-- A concrete frame-renderer state with three per-frame records. -/
def sampleRP : RPState :=
  { perFrame :=
      [{ framebuffer := 61, commandBuffer := 31, fence := 41, semaphore := 51,
         fenceCreatedSignaled := true },
       { framebuffer := 62, commandBuffer := 32, fence := 42, semaphore := 52,
         fenceCreatedSignaled := true },
       { framebuffer := 63, commandBuffer := 33, fence := 43, semaphore := 53,
         fenceCreatedSignaled := true }],
    outputInfo := { width := 800, height := 600, format := vkFormatB8G8R8A8Unorm },
    outputViews := [71, 72, 73], attachmentFormat := vkFormatB8G8R8A8Unorm,
    nextHandle := 100, callIdx := 0, released := [], fenceWaits := [] }

/-- A concrete image-set notification with two images. -/
def sampleImagesInfo : ImagesInfo :=
  { images := [11, 12], width := 800, height := 600, format := vkFormatB8G8R8A8Unorm }

/-- A concrete image-set notification with four images. -/
def sampleImagesInfo4 : ImagesInfo :=
  { images := [11, 12, 13, 14], width := 640, height := 480,
    format := vkFormatB8G8R8A8Unorm }

/-- A concrete query driver whose true element count stabilizes at 3 from time 4 on. -/
def sampleDriver : QueryDriver Nat :=
  { trueCount := fun t => if t < 4 then 5 - t else 3,
    items := fun _ => [9, 8, 7, 6, 5] }

/-- C10: the chosen swapchain image count respects the native bounds (with
`max_image_count = 0` meaning unbounded) and equals 3 exactly when 3 lies within
those bounds. -/
theorem c10_min_image_count_policy (caps : VkSurfaceCaps)
    (h : caps.maxImageCount = 0 ∨ caps.minImageCount ≤ caps.maxImageCount) :
    caps.minImageCount ≤ getMinImageCount caps
      ∧ (caps.maxImageCount ≠ 0 → getMinImageCount caps ≤ caps.maxImageCount)
      ∧ (getMinImageCount caps = 3 ↔
          caps.minImageCount ≤ 3 ∧ (caps.maxImageCount = 0 ∨ 3 ≤ caps.maxImageCount)) := by
  unfold getMinImageCount
  split_ifs with h1 h2
  · omega
  · simp only [Bool.and_eq_true, ne_eq, decide_eq_true_eq] at h2
    omega
  · simp only [Bool.and_eq_true, ne_eq, decide_eq_true_eq, not_and, Decidable.not_not] at h2
    push_neg at h2
    omega

/-- Witness for C10 at a concrete capability snapshot. -/
theorem c10_min_image_count_policy_witness :
    sampleCaps.minImageCount ≤ getMinImageCount sampleCaps
      ∧ (sampleCaps.maxImageCount ≠ 0 → getMinImageCount sampleCaps ≤ sampleCaps.maxImageCount)
      ∧ (getMinImageCount sampleCaps = 3 ↔
          sampleCaps.minImageCount ≤ 3
            ∧ (sampleCaps.maxImageCount = 0 ∨ 3 ≤ sampleCaps.maxImageCount)) :=
  c10_min_image_count_policy sampleCaps (Or.inr (by decide))

/-- Helper for C9: the retry loop returns immediately when the count query fails. -/
theorem readAux_count_error {α : Type} (iter : Nat → IterResponse α) (k fuel : Nat)
    (h : (iter k).countResult ≠ .success) :
    readIntoVectorAux iter k (fuel + 1) = some ((iter k).countResult, none) := by
  simp [readIntoVectorAux, h]

/-- Helper for C9: the retry loop returns immediately on a data-read result other
than SUCCESS or INCOMPLETE. -/
theorem readAux_data_error {α : Type} (iter : Nat → IterResponse α) (k fuel : Nat)
    (h1 : (iter k).countResult = .success)
    (h2 : (iter k).dataResult ≠ .success) (h3 : (iter k).dataResult ≠ .incomplete) :
    readIntoVectorAux iter k (fuel + 1) = some ((iter k).dataResult, none) := by
  rcases h : (iter k).dataResult <;> simp_all [readIntoVectorAux]

/-- Helper for C9: the loop iterates again exactly on INCOMPLETE. -/
theorem readAux_incomplete {α : Type} (iter : Nat → IterResponse α) (k fuel : Nat)
    (h1 : (iter k).countResult = .success) (h2 : (iter k).dataResult = .incomplete) :
    readIntoVectorAux iter k (fuel + 1) = readIntoVectorAux iter (k + 1) fuel := by
  simp [readIntoVectorAux, h1, h2]

/-- Helper for C9: once the driver's reported count has stabilized, the loop
terminates with SUCCESS within a fuel bound derived from the stabilization time. -/
theorem readAux_driver_terminates {α : Type} (d : QueryDriver α) (C N : Nat)
    (hstab : ∀ t, N ≤ t → d.trueCount t = C) :
    ∀ fuel k, N + 1 ≤ k + fuel → 1 ≤ fuel →
      ∃ c data, readIntoVectorAux (driverIter d) k fuel = some (.success, some (c, data)) := by
  intro fuel
  induction fuel with
  | zero => intro k _ h1; omega
  | succ f ih =>
    intro k hk _
    by_cases hle : d.trueCount (2 * k + 1) ≤ d.trueCount (2 * k)
    · exact ⟨d.trueCount (2 * k + 1), (d.items (2 * k + 1)).take (d.trueCount (2 * k + 1)),
        by simp [readIntoVectorAux, driverIter, hle]⟩
    · have hf : 1 ≤ f := by
        by_contra h0
        have h1 : d.trueCount (2 * k) = C := hstab _ (by omega)
        have h2 : d.trueCount (2 * k + 1) = C := hstab _ (by omega)
        omega
      obtain ⟨c, data, heq⟩ := ih (k + 1) (by omega) hf
      exact ⟨c, data, by simpa [readIntoVectorAux, driverIter, hle] using heq⟩

/-- C9: the variable-length query loop returns immediately whenever the count
query fails or the data read fails with anything other than INCOMPLETE, retries
exactly on INCOMPLETE, and, for a driver whose reported count stabilizes by time
N, terminates with SUCCESS for any fuel of at least N + 1 iterations. -/
theorem c9_read_into_vector_retry :
    (∀ (iter : Nat → IterResponse Nat) (k fuel : Nat),
        (iter k).countResult ≠ .success →
        readIntoVectorAux iter k (fuel + 1) = some ((iter k).countResult, none))
  ∧ (∀ (iter : Nat → IterResponse Nat) (k fuel : Nat),
        (iter k).countResult = .success →
        (iter k).dataResult ≠ .success → (iter k).dataResult ≠ .incomplete →
        readIntoVectorAux iter k (fuel + 1) = some ((iter k).dataResult, none))
  ∧ (∀ (iter : Nat → IterResponse Nat) (k fuel : Nat),
        (iter k).countResult = .success → (iter k).dataResult = .incomplete →
        readIntoVectorAux iter k (fuel + 1) = readIntoVectorAux iter (k + 1) fuel)
  ∧ (∀ (d : QueryDriver Nat) (C N : Nat),
        (∀ t, N ≤ t → d.trueCount t = C) →
        ∀ fuel, N + 1 ≤ fuel →
          ∃ c data,
            readIntoVectorAux (driverIter d) 0 fuel = some (.success, some (c, data))) :=
  ⟨fun iter k fuel h => readAux_count_error iter k fuel h,
   fun iter k fuel h1 h2 h3 => readAux_data_error iter k fuel h1 h2 h3,
   fun iter k fuel h1 h2 => readAux_incomplete iter k fuel h1 h2,
   fun d C N hstab fuel hfuel =>
     readAux_driver_terminates d C N hstab fuel 0 (by omega) (by omega)⟩

/-- Witness for C9 at a concrete driver whose count stabilizes at 3 from time 4. -/
theorem c9_read_into_vector_retry_witness :
    ∃ c data,
      readIntoVectorAux (driverIter sampleDriver) 0 10 = some (.success, some (c, data)) :=
  c9_read_into_vector_retry.2.2.2 sampleDriver 3 4 (fun t ht => by simp [sampleDriver]; omega)
    10 (by omega)

/-- Helper for C3/C4: `listPosition` finds nothing iff no element satisfies the
predicate. -/
theorem listPosition_eq_none {α : Type} (p : α → Bool) (l : List α) :
    listPosition p l = none ↔ ∀ x ∈ l, p x = false := by
  induction l with
  | nil => simp [listPosition]
  | cons x xs ih =>
    by_cases hx : p x <;> simp [listPosition, hx, ih, Option.map_eq_none']

/-- Helper for C3/C4: requesting an unregistered attachment type fails. -/
theorem requestAttachmentRef_none (b : RenderPassBuilder) (id : TypeId) (l : Nat)
    (h : id ∉ b.attachmentIds) : b.requestAttachmentRef id l = none := by
  have hpos : listPosition (fun i => i = id) b.attachmentIds = none := by
    rw [listPosition_eq_none]
    intro x hx
    simp only [decide_eq_false_iff_not]
    rintro rfl
    exact h hx
  simp [RenderPassBuilder.requestAttachmentRef, hpos]

/-- Helper for C3/C4: a reference request never changes the registered type tags. -/
theorem requestAttachmentRef_ids (b : RenderPassBuilder) (id : TypeId) (l : Nat)
    (r : Nat × RenderPassBuilder) (h : b.requestAttachmentRef id l = some r) :
    r.2.attachmentIds = b.attachmentIds := by
  unfold RenderPassBuilder.requestAttachmentRef at h
  rcases hp : listPosition (fun i => i = id) b.attachmentIds with _ | idx <;> rw [hp] at h
  · cases h
  · cases h
    rfl

/-- Helper for C3/C4: the color-request loop never changes the registered tags. -/
theorem requestColorRefs_ids (reqs : List (TypeId × Nat)) (b b' : RenderPassBuilder)
    (h : requestColorRefs reqs b = .ok b') : b'.attachmentIds = b.attachmentIds := by
  induction reqs generalizing b with
  | nil =>
    simp only [requestColorRefs, Except.ok.injEq] at h
    rw [h]
  | cons r rest ih =>
    rcases hl : b.requestAttachmentRef r.1 r.2 with _ | ⟨n, b2⟩
    · simp [requestColorRefs, hl] at h
    · simp only [requestColorRefs, hl] at h
      rw [ih b2 h, requestAttachmentRef_ids b r.1 r.2 (n, b2) hl]

/-- Helper for C4: the color-request loop fails only with `MissingAttachment`. -/
theorem requestColorRefs_error (reqs : List (TypeId × Nat)) (b : RenderPassBuilder)
    (e : RenderPassError) (h : requestColorRefs reqs b = .error e) :
    e = .missingAttachment := by
  induction reqs generalizing b with
  | nil => simp [requestColorRefs] at h
  | cons r rest ih =>
    rcases hl : b.requestAttachmentRef r.1 r.2 with _ | ⟨n, b2⟩
    · simp only [requestColorRefs, hl, Except.error.injEq] at h
      exact h.symm
    · simp only [requestColorRefs, hl] at h
      exact ih b2 h

/-- Helper for C4: a request for an unregistered type makes the loop fail. -/
theorem requestColorRefs_missing (reqs : List (TypeId × Nat)) (b : RenderPassBuilder)
    (req : TypeId × Nat) (hreq : req ∈ reqs) (hmiss : req.1 ∉ b.attachmentIds) :
    requestColorRefs reqs b = .error .missingAttachment := by
  induction reqs generalizing b with
  | nil => cases hreq
  | cons r rest ih =>
    rcases hl : b.requestAttachmentRef r.1 r.2 with _ | ⟨n, b2⟩
    · simp [requestColorRefs, hl]
    · rcases List.mem_cons.mp hreq with heq | hrest
      · exfalso
        subst heq
        rw [requestAttachmentRef_none b req.1 req.2 hmiss] at hl
        cases hl
      · have hids := requestAttachmentRef_ids b r.1 r.2 (n, b2) hl
        have hmiss2 : req.1 ∉ b2.attachmentIds := by rw [hids]; exact hmiss
        simp only [requestColorRefs, hl]
        exact ih b2 hrest hmiss2

/-- Helper for C4: a subpass registration fails only with `MissingAttachment`. -/
theorem subpassRegister_error (sp : SubpassModel) (b : RenderPassBuilder)
    (e : RenderPassError) (h : sp.register b = .error e) : e = .missingAttachment := by
  unfold SubpassModel.register at h
  rcases hl : requestColorRefs sp.colorRequests b with e2 | b2 <;> rw [hl] at h
  · cases h
    exact requestColorRefs_error sp.colorRequests b e hl
  · cases h

/-- Helper for C4: a subpass registration never changes the registered tags. -/
theorem subpassRegister_ids (sp : SubpassModel) (b : RenderPassBuilder)
    (desc : SubpassDescription) (b' : RenderPassBuilder)
    (h : sp.register b = .ok (desc, b')) : b'.attachmentIds = b.attachmentIds := by
  unfold SubpassModel.register at h
  rcases hl : requestColorRefs sp.colorRequests b with e2 | b2 <;> rw [hl] at h
  · cases h
  · cases h
    exact requestColorRefs_ids sp.colorRequests b _ hl

/-- Helper for C4: a subpass requesting an unregistered type fails to register. -/
theorem subpassRegister_missing (sp : SubpassModel) (b : RenderPassBuilder)
    (req : TypeId × Nat) (hreq : req ∈ sp.colorRequests)
    (hmiss : req.1 ∉ b.attachmentIds) : sp.register b = .error .missingAttachment := by
  unfold SubpassModel.register
  rw [requestColorRefs_missing sp.colorRequests b req hreq hmiss]

/-- Helper for C4: the subpass-list registration fails only with
`MissingAttachment`. -/
theorem registerSubpassList_error (subs : List SubpassModel) (b : RenderPassBuilder)
    (e : RenderPassError) (h : registerSubpassList subs b = .error e) :
    e = .missingAttachment := by
  induction subs generalizing b with
  | nil => simp [registerSubpassList] at h
  | cons sp rest ih =>
    rcases hl : b.registerSubpass sp with e2 | b2
    · simp only [registerSubpassList, hl, Except.error.injEq] at h
      subst h
      unfold RenderPassBuilder.registerSubpass at hl
      rcases hr : sp.register b with e3 | ⟨desc, b3⟩ <;> rw [hr] at hl
      · cases hl
        exact subpassRegister_error sp b e2 hr
      · cases hl
    · simp only [registerSubpassList, hl] at h
      exact ih b2 h

/-- Helper for C4: `register_subpass` never changes the registered tags. -/
theorem registerSubpass_ids (b : RenderPassBuilder) (sp : SubpassModel)
    (b' : RenderPassBuilder) (h : b.registerSubpass sp = .ok b') :
    b'.attachmentIds = b.attachmentIds := by
  unfold RenderPassBuilder.registerSubpass at h
  rcases hr : sp.register b with e | ⟨desc, b2⟩ <;> rw [hr] at h
  · cases h
  · cases h
    exact subpassRegister_ids sp b desc b2 hr

/-- Helper for C4: if any subpass of the list requests an unregistered type, the
whole registration fails with `MissingAttachment`. -/
theorem registerSubpassList_missing (subs : List SubpassModel) (b : RenderPassBuilder)
    (sp : SubpassModel) (req : TypeId × Nat) (hsp : sp ∈ subs)
    (hreq : req ∈ sp.colorRequests) (hmiss : req.1 ∉ b.attachmentIds) :
    registerSubpassList subs b = .error .missingAttachment := by
  induction subs generalizing b with
  | nil => cases hsp
  | cons sp2 rest ih =>
    rcases hl : b.registerSubpass sp2 with e2 | b2
    · have he := registerSubpassList_error (sp2 :: rest) b e2 (by simp [registerSubpassList, hl])
      simp only [registerSubpassList, hl]
      rw [he]
    · rcases List.mem_cons.mp hsp with heq | hrest
      · exfalso
        subst heq
        unfold RenderPassBuilder.registerSubpass at hl
        rw [subpassRegister_missing sp b req hreq hmiss] at hl
        cases hl
      · have hids := registerSubpass_ids b sp2 b2 hl
        have hmiss2 : req.1 ∉ b2.attachmentIds := by rw [hids]; exact hmiss
        simp only [registerSubpassList, hl]
        exact ih b2 hrest hmiss2

/-- Helper for C3/C4: attachment-list registration appends exactly the declared
type tags, in declaration order. -/
theorem registerAttachmentList_ids (atts : List (TypeId × AttachmentDescription))
    (b : RenderPassBuilder) :
    (registerAttachmentList atts b).attachmentIds = b.attachmentIds ++ atts.map Prod.fst := by
  induction atts generalizing b with
  | nil => simp [registerAttachmentList]
  | cons a rest ih =>
    show (registerAttachmentList rest (b.registerAttachment a.1 a.2)).attachmentIds = _
    rw [ih]
    simp [RenderPassBuilder.registerAttachment]

/-- C4: when a subpass requests an attachment type that was never registered,
`RenderPass::new` returns `MissingAttachment` and the native render pass is not
created; moreover the registration phase (the builder) can fail in no other way. -/
theorem c4_missing_attachment_aborts (env : RenderPassNewEnv)
    (atts : List (TypeId × AttachmentDescription)) (subs : List SubpassModel)
    (sp : SubpassModel) (req : TypeId × Nat)
    (hsp : sp ∈ subs) (hreq : req ∈ sp.colorRequests)
    (hmiss : req.1 ∉ atts.map Prod.fst) :
    renderPassNew env atts subs = (.error .missingAttachment, false)
  ∧ (∀ (atts2 : List (TypeId × AttachmentDescription)) (subs2 : List SubpassModel)
        (e : RenderPassError),
        registerSubpassList subs2 (registerAttachmentList atts2 RenderPassBuilder.empty) =
          .error e →
        e = .missingAttachment) := by
  constructor
  · have hids : req.1 ∉ (registerAttachmentList atts RenderPassBuilder.empty).attachmentIds := by
      rw [registerAttachmentList_ids]
      simpa [RenderPassBuilder.empty] using hmiss
    have hfail := registerSubpassList_missing subs _ sp req hsp hreq hids
    simp [renderPassNew, hfail]
  · intro atts2 subs2 e he
    exact registerSubpassList_error subs2 _ e he

/-- Witness for C4 at a concrete graph: one attachment with tag 0, one subpass
requesting tag 7. -/
theorem c4_missing_attachment_aborts_witness :
    renderPassNew okRenderPassNewEnv [(0, 1)] [⟨[(7, 2)]⟩] =
      (.error .missingAttachment, false) :=
  (c4_missing_attachment_aborts okRenderPassNewEnv [(0, 1)] [⟨[(7, 2)]⟩] ⟨[(7, 2)]⟩ (7, 2)
    (by simp) (by simp) (by simp)).1

/-- C3: for a graph with attachments registered in order [A, B] and a subpass
requesting only type A, `build` produces a subpass descriptor whose single
color-attachment reference carries attachment index 0 (the registration index of
A); with the declaration order [B, A] the reference carries index 1 — in both
cases the registration index of A, independent of B's position. -/
theorem c3_color_ref_registration_index (a b : TypeId) (da db : AttachmentDescription)
    (l : Nat) (env : RenderPassNewEnv)
    (h1 : env.createRenderPassResult = .ok ()) (h2 : env.createCommandPoolResult = .ok ())
    (hab : b ≠ a) :
    renderPassNew env [(a, da), (b, db)] [⟨[(a, l)]⟩] =
      (.ok
        { attachments := [da, db],
          subpasses :=
            [{ inputAttachments := [], colorAttachments := [{ attachment := 0, layout := l }],
               depthStencilAttachment := none, preserveAttachments := [] }],
          dependencies := [] }, true)
  ∧ renderPassNew env [(b, db), (a, da)] [⟨[(a, l)]⟩] =
      (.ok
        { attachments := [db, da],
          subpasses :=
            [{ inputAttachments := [], colorAttachments := [{ attachment := 1, layout := l }],
               depthStencilAttachment := none, preserveAttachments := [] }],
          dependencies := [] }, true) := by
  constructor
  · simp [renderPassNew, registerAttachmentList, RenderPassBuilder.registerAttachment,
      RenderPassBuilder.empty, registerSubpassList, RenderPassBuilder.registerSubpass,
      SubpassModel.register, requestColorRefs, RenderPassBuilder.requestAttachmentRef,
      listPosition, RenderPassBuilder.build, patchSubpass, h1, h2]
  · simp [renderPassNew, registerAttachmentList, RenderPassBuilder.registerAttachment,
      RenderPassBuilder.empty, registerSubpassList, RenderPassBuilder.registerSubpass,
      SubpassModel.register, requestColorRefs, RenderPassBuilder.requestAttachmentRef,
      listPosition, RenderPassBuilder.build, patchSubpass, h1, h2, hab]

/-- Witness for C3 at concrete type tags 10 and 20. -/
theorem c3_color_ref_registration_index_witness :
    renderPassNew okRenderPassNewEnv [(10, 1), (20, 2)]
        [⟨[(10, vkLayoutColorAttachmentOptimal)]⟩] =
      (.ok
        { attachments := [1, 2],
          subpasses :=
            [{ inputAttachments := [],
               colorAttachments := [{ attachment := 0, layout := vkLayoutColorAttachmentOptimal }],
               depthStencilAttachment := none, preserveAttachments := [] }],
          dependencies := [] }, true) :=
  (c3_color_ref_registration_index 10 20 1 2 vkLayoutColorAttachmentOptimal
    okRenderPassNewEnv rfl rfl (by decide)).1


/-- Helper for C1: a retired surface fails `present` fast, with the whole state
(call log and semaphore pool included) untouched. -/
theorem present_retired (penv : PresentEnv) (s : Surface) (h : s.swapchain = 0) :
    Surface.present penv s = (.error .swapchainRetired, s) := by
  simp [Surface.present, h]

/-- Helper for C1: the present-error translation never produces
`SwapchainRetired`. -/
theorem vkToPresentErr_ne_retired (e : VkResult) : vkToPresentErr e ≠ .swapchainRetired := by
  cases e <;> simp [vkToPresentErr]

/-- Helper for C1: `present` on a surface with a live swapchain never returns
`SwapchainRetired`. -/
theorem present_not_retired (penv : PresentEnv) (s : Surface) (h : ¬s.swapchain = 0) :
    (Surface.present penv s).1 ≠ .error .swapchainRetired := by
  unfold Surface.present
  rw [if_neg h]
  rcases hg : semaphorePoolGet penv s with ⟨rg, s1⟩
  rcases rg with e | sem
  · simp
  · rcases hA : penv.acquireResult with e | idx <;> simp only [hA]
    · simp [vkToPresentErr_ne_retired]
    · rcases hR : penv.renderResult with e | pushed <;> simp only [hR]
      · simp
      · rcases hQ : penv.queuePresentResult with e | u <;> simp only [hQ]
        · simp [vkToPresentErr_ne_retired]
        · simp

/-- C6: a configuration with zero width or height is rejected with
`InvalidConfig`, leaving the swapchain handle, the image list, the stored
configuration (and the semaphore pool and destroyed-swapchain log) unchanged.
The hypothesis `hcaps` says the live capability query itself succeeds. -/
theorem c6_zero_size_rejected (env : ConfigureEnv) (cfg : SurfaceConfig) (s : Surface)
    (caps : VkSurfaceCaps) (hcaps : env.capsResult = .ok caps)
    (hzero : cfg.width = 0 ∨ cfg.height = 0) :
    (Surface.configure env cfg s).1 = .error .invalidConfig
  ∧ (Surface.configure env cfg s).2.swapchain = s.swapchain
  ∧ (Surface.configure env cfg s).2.images = s.images
  ∧ (Surface.configure env cfg s).2.config = s.config
  ∧ (Surface.configure env cfg s).2.semaphorePool = s.semaphorePool
  ∧ destroyedSwapchains (Surface.configure env cfg s).2.calls =
      destroyedSwapchains s.calls := by
  have hcv : ∀ s2 : Surface, (liveSurfaceCaps caps s2).isConfigValid cfg = false := by
    intro s2
    rcases hzero with hz | hz <;>
      simp [SurfaceCapabilities.isConfigValid, liveSurfaceCaps, hz]
  simp [Surface.configure, Surface.capabilities, getSurfaceCapabilitiesCall, hcaps,
    Except.mapError, hcv, destroyedSwapchains, List.filterMap_append]

/-- Witness for C6 at a concrete zero-width configuration. -/
theorem c6_zero_size_rejected_witness :
    (Surface.configure okConfigureEnv ⟨0, 600, .fifo⟩ sampleSurface).1 =
        .error .invalidConfig
  ∧ (Surface.configure okConfigureEnv ⟨0, 600, .fifo⟩ sampleSurface).2.swapchain =
      sampleSurface.swapchain :=
  ⟨(c6_zero_size_rejected okConfigureEnv ⟨0, 600, .fifo⟩ sampleSurface sampleCaps rfl
      (Or.inl rfl)).1,
   (c6_zero_size_rejected okConfigureEnv ⟨0, 600, .fifo⟩ sampleSurface sampleCaps rfl
      (Or.inl rfl)).2.1⟩

/-- C2 (amended): for a valid configuration, when the native creation and
image-query calls succeed, `configure` succeeds: the old swapchain handle is
passed to the creation call as the reuse hint, the image list is refreshed, the
new configuration is stored, and `is_swapchain_valid()` becomes true. No
swapchain is destroyed by this path: in particular the old handle is not. -/
theorem c2_configure_success (env : ConfigureEnv) (cfg : SurfaceConfig) (s : Surface)
    (caps : VkSurfaceCaps) (imgs : List Nat)
    (hcaps : env.capsResult = .ok caps)
    (hvalid : (liveSurfaceCaps caps s).isConfigValid cfg = true)
    (hcreate : env.createSwapchainResult = .ok ())
    (himgs : env.getImagesResult = .ok imgs) :
    (Surface.configure env cfg s).1 = .ok ()
  ∧ (Surface.configure env cfg s).2.swapchain = s.nextHandle + 1
  ∧ Surface.isSwapchainValid (Surface.configure env cfg s).2 = true
  ∧ (Surface.configure env cfg s).2.images = imgs
  ∧ (Surface.configure env cfg s).2.config = cfg
  ∧ (Surface.configure env cfg s).2.calls =
      s.calls ++
        [SurfCall.getSurfaceCapabilities,
         SurfCall.createSwapchain s.swapchain cfg.width cfg.height cfg.presentMode
           s.info.minImageCount,
         SurfCall.getSwapchainImages (s.nextHandle + 1)]
  ∧ destroyedSwapchains (Surface.configure env cfg s).2.calls =
      destroyedSwapchains s.calls := by
  have hv2 : (liveSurfaceCaps caps
      { s with calls := s.calls ++ [SurfCall.getSurfaceCapabilities] }).isConfigValid cfg =
      true := hvalid
  simp [Surface.configure, Surface.capabilities, getSurfaceCapabilitiesCall, hcaps,
    Except.mapError, hv2, Surface.configureUnchecked, createSwapchain, hcreate, himgs,
    Surface.alloc, Surface.isSwapchainValid, destroyedSwapchains, List.filterMap_append]

/-- Counterexample for C2 as stated: a successful `configure` from a live
swapchain (handle 5) never issues a destroy call for that old handle — the
destroyed-swapchain log stays empty. -/
theorem c2_counterexample :
    sampleSurface.swapchain = 5
  ∧ (Surface.configure okConfigureEnv sampleCfg sampleSurface).1 = .ok ()
  ∧ (destroyedSwapchains
      (Surface.configure okConfigureEnv sampleCfg sampleSurface).2.calls).contains 5 =
      false :=
  ⟨rfl, rfl, rfl⟩

/-- Witness for C2 (amended) at a concrete surface and environment. -/
theorem c2_configure_success_witness :
    (Surface.configure okConfigureEnv sampleCfg sampleSurface).1 = .ok ()
  ∧ (Surface.configure okConfigureEnv sampleCfg sampleSurface).2.images = [21, 22, 23] :=
  ⟨(c2_configure_success okConfigureEnv sampleCfg sampleSurface sampleCaps [21, 22, 23]
      rfl (by decide) rfl rfl).1,
   (c2_configure_success okConfigureEnv sampleCfg sampleSurface sampleCaps [21, 22, 23]
      rfl (by decide) rfl rfl).2.2.2.1⟩

/-- A query environment whose native capability query reports zero array layers
and no color-attachment usage. -/
def zeroLayerQueryEnv : QueryEnv :=
  { capsResult := .ok zeroLayerCaps, formatsResult := .ok [⟨44, 0⟩],
    presentModesResult := .ok [2] }

/-- C5 (amended): the `NotSupported` rejection for missing color-attachment usage
or zero array layers happens in the swapchain-info capability query performed at
surface creation, not in `capabilities()`; `capabilities()` combines the live
min/max extent bounds with the cached present-mode snapshot and fails only by
propagating the translated native error, which is never `NotSupported`. -/
theorem c5_not_supported_in_query :
    (∀ (envq : QueryEnv) (caps : VkSurfaceCaps), envq.capsResult = .ok caps →
        caps.maxImageArrayLayers = 0 ∨ caps.supportsColorAttachmentUsage = false →
        querySwapchainInfo envq = .error .notSupported)
  ∧ (∀ (caps : VkSurfaceCaps) (s : Surface),
        (Surface.capabilities (.ok caps) s).1 = .ok (liveSurfaceCaps caps s))
  ∧ (∀ (e : VkResult) (s : Surface),
        (Surface.capabilities (.error e) s).1 = .error (vkToSurfaceErr e)
          ∧ vkToSurfaceErr e ≠ .notSupported) := by
  refine ⟨?_, ?_, ?_⟩
  · intro envq caps hcaps hbad
    have hsan : sanitizeAssumedCapabilities caps = .error .notSupported := by
      rcases hbad with hb | hb <;> unfold sanitizeAssumedCapabilities <;>
        split_ifs <;> simp_all
    simp [querySwapchainInfo, hcaps, Except.mapError, hsan, Bind.bind, Except.bind]
  · intro caps s
    simp [Surface.capabilities, getSurfaceCapabilitiesCall, Except.mapError]
    rfl
  · intro e s
    refine ⟨by simp [Surface.capabilities, getSurfaceCapabilitiesCall, Except.mapError], ?_⟩
    cases e <;> simp [vkToSurfaceErr]

/-- Counterexample for C5 as stated: with live capabilities reporting zero array
layers and no color-attachment usage, `capabilities()` does not fail with
`NotSupported` (it succeeds). -/
theorem c5_counterexample :
    zeroLayerCaps.maxImageArrayLayers = 0
  ∧ zeroLayerCaps.supportsColorAttachmentUsage = false
  ∧ (Surface.capabilities (.ok zeroLayerCaps) sampleSurface).1 ≠ .error .notSupported := by
  refine ⟨rfl, rfl, ?_⟩
  intro h
  simp [Surface.capabilities, getSurfaceCapabilitiesCall, Except.mapError] at h

/-- Witness for C5 (amended) at concrete inputs. -/
theorem c5_not_supported_in_query_witness :
    querySwapchainInfo zeroLayerQueryEnv = .error .notSupported
  ∧ (Surface.capabilities (.ok sampleCaps) sampleSurface).1 =
      .ok (liveSurfaceCaps sampleCaps sampleSurface) :=
  ⟨c5_not_supported_in_query.1 zeroLayerQueryEnv zeroLayerCaps rfl (Or.inl rfl),
   c5_not_supported_in_query.2.1 sampleCaps sampleSurface⟩

/-- Helper for C1: when `configure` fails on an already-retired surface, the
surface stays retired. -/
theorem configure_error_keeps_retired (env : ConfigureEnv) (cfg : SurfaceConfig)
    (s : Surface) (h0 : s.swapchain = 0) (e : SurfaceError)
    (h : (Surface.configure env cfg s).1 = .error e) :
    (Surface.configure env cfg s).2.swapchain = 0 := by
  unfold Surface.configure Surface.capabilities getSurfaceCapabilitiesCall at h ⊢
  rcases hc : env.capsResult with e2 | caps
  · simp only [hc, Except.mapError]
    exact h0
  · simp only [hc, Except.mapError] at h ⊢
    cases hv : (liveSurfaceCaps caps
        { s with calls := s.calls ++ [SurfCall.getSurfaceCapabilities] }).isConfigValid cfg
    · simp only [hv, Bool.not_false, if_pos]
      exact h0
    · simp only [hv, Bool.not_true, Bool.false_eq_true, if_neg, reduceIte] at h ⊢
      unfold Surface.configureUnchecked createSwapchain at h ⊢
      rcases hcr : env.createSwapchainResult with e3 | u
      · simp [hcr]
      · cases u
        rcases hgi : env.getImagesResult with e4 | imgs
        · simp [hcr, hgi, Surface.alloc]
        · simp only [hcr, hgi, Surface.alloc] at h
          simp at h

/-- Helper for C1: a successful `configure` installs a live (nonzero) swapchain
handle. -/
theorem configure_ok_not_null (env : ConfigureEnv) (cfg : SurfaceConfig) (s : Surface)
    (h : (Surface.configure env cfg s).1 = .ok ()) :
    (Surface.configure env cfg s).2.swapchain ≠ 0 := by
  unfold Surface.configure Surface.capabilities getSurfaceCapabilitiesCall at h ⊢
  rcases hc : env.capsResult with e2 | caps
  · simp [hc, Except.mapError] at h
  · simp only [hc, Except.mapError] at h ⊢
    cases hv : (liveSurfaceCaps caps
        { s with calls := s.calls ++ [SurfCall.getSurfaceCapabilities] }).isConfigValid cfg
    · simp [hv] at h
    · simp only [hv, Bool.not_true, Bool.false_eq_true, if_neg, reduceIte] at h ⊢
      unfold Surface.configureUnchecked createSwapchain at h ⊢
      rcases hcr : env.createSwapchainResult with e3 | u
      · simp [hcr] at h
      · cases u
        rcases hgi : env.getImagesResult with e4 | imgs
        · simp [hcr, hgi, Surface.alloc] at h
        · simp [hcr, hgi, Surface.alloc]

/-- C1: when `configure` passes validation but the native swapchain-creation call
fails, the surface is retired: the swapchain handle is null, `is_swapchain_valid`
is false, and every subsequent `present` returns `SwapchainRetired` with the
state completely untouched (no semaphore checkout, no image acquisition, no
native call). Retirement persists across further failing `configure` calls, and
ends exactly when a `configure` succeeds, after which `present` never returns
`SwapchainRetired`. -/
theorem c1_failed_configure_retires (env : ConfigureEnv) (cfg : SurfaceConfig)
    (s : Surface) (caps : VkSurfaceCaps) (e0 : VkResult)
    (hcaps : env.capsResult = .ok caps)
    (hvalid : (liveSurfaceCaps caps s).isConfigValid cfg = true)
    (hcreate : env.createSwapchainResult = .error e0) :
    (Surface.configure env cfg s).1 = .error (vkToSurfaceErr e0)
  ∧ (Surface.configure env cfg s).2.swapchain = 0
  ∧ Surface.isSwapchainValid (Surface.configure env cfg s).2 = false
  ∧ (∀ penv : PresentEnv,
      Surface.present penv (Surface.configure env cfg s).2 =
        (.error .swapchainRetired, (Surface.configure env cfg s).2))
  ∧ (∀ (env2 : ConfigureEnv) (cfg2 : SurfaceConfig) (e2 : SurfaceError),
      (Surface.configure env2 cfg2 (Surface.configure env cfg s).2).1 = .error e2 →
      ∀ penv : PresentEnv,
        Surface.present penv (Surface.configure env2 cfg2 (Surface.configure env cfg s).2).2 =
          (.error .swapchainRetired,
           (Surface.configure env2 cfg2 (Surface.configure env cfg s).2).2))
  ∧ (∀ (env2 : ConfigureEnv) (cfg2 : SurfaceConfig),
      (Surface.configure env2 cfg2 (Surface.configure env cfg s).2).1 = .ok () →
      Surface.isSwapchainValid
          (Surface.configure env2 cfg2 (Surface.configure env cfg s).2).2 = true
      ∧ ∀ penv : PresentEnv,
          (Surface.present penv
              (Surface.configure env2 cfg2 (Surface.configure env cfg s).2).2).1 ≠
            .error .swapchainRetired) := by
  have hv2 : (liveSurfaceCaps caps
      { s with calls := s.calls ++ [SurfCall.getSurfaceCapabilities] }).isConfigValid cfg =
      true := hvalid
  have hmain : (Surface.configure env cfg s).1 = .error (vkToSurfaceErr e0)
      ∧ (Surface.configure env cfg s).2.swapchain = 0 := by
    unfold Surface.configure Surface.capabilities getSurfaceCapabilitiesCall
    simp [hcaps, Except.mapError, hv2, Surface.configureUnchecked, createSwapchain, hcreate]
  refine ⟨hmain.1, hmain.2, ?_, ?_, ?_, ?_⟩
  · simp [Surface.isSwapchainValid, hmain.2]
  · intro penv
    exact present_retired penv _ hmain.2
  · intro env2 cfg2 e2 herr penv
    exact present_retired penv _
      (configure_error_keeps_retired env2 cfg2 _ hmain.2 e2 herr)
  · intro env2 cfg2 hok
    have hnn := configure_ok_not_null env2 cfg2 _ hok
    exact ⟨by simp [Surface.isSwapchainValid, hnn], fun penv => present_not_retired penv _ hnn⟩

/-- Witness for C1 at a concrete surface and a failing creation environment. -/
theorem c1_failed_configure_retires_witness :
    (Surface.configure failCreateEnv sampleCfg sampleSurface).1 =
        .error (vkToSurfaceErr (.errorOther 3))
  ∧ Surface.present samplePresentEnv (Surface.configure failCreateEnv sampleCfg sampleSurface).2 =
      (.error .swapchainRetired, (Surface.configure failCreateEnv sampleCfg sampleSurface).2) :=
  ⟨(c1_failed_configure_retires failCreateEnv sampleCfg sampleSurface sampleCaps
      (.errorOther 3) rfl (by decide) rfl).1,
   (c1_failed_configure_retires failCreateEnv sampleCfg sampleSurface sampleCaps
      (.errorOther 3) rfl (by decide) rfl).2.2.2.1 samplePresentEnv⟩


/-- Helper for C7/C8: a creation call never touches the per-frame vector. -/
theorem rpCreate_perFrame (env : RPEnv) (s : RPState) :
    (rpCreate env s).2.perFrame = s.perFrame := by
  unfold rpCreate
  split_ifs <;> rfl

/-- Helper for C7/C8: a creation call never releases anything. -/
theorem rpCreate_released (env : RPEnv) (s : RPState) :
    (rpCreate env s).2.released = s.released := by
  unfold rpCreate
  split_ifs <;> rfl

/-- Helper for C7/C8: a successful creation call returns a nonzero handle. -/
theorem rpCreate_ok_ne_zero (env : RPEnv) (s : RPState) (h : Nat)
    (hok : (rpCreate env s).1 = .ok h) : h ≠ 0 := by
  unfold rpCreate at hok
  split_ifs at hok <;> simp_all <;> omega

/-- Helper for C7/C8: `PerFrame::new` never touches the per-frame vector. -/
theorem perFrameNew_perFrame (env : RPEnv) (s : RPState) :
    (PerFrame.new env s).2.perFrame = s.perFrame := by
  unfold PerFrame.new
  rcases h1 : rpCreate env s with ⟨r1, s1⟩
  have e1 : s1.perFrame = s.perFrame := by
    have h := rpCreate_perFrame env s
    rw [h1] at h
    exact h
  rcases r1 with e | fence
  · simp [h1, e1]
  · rcases h2 : rpCreate env s1 with ⟨r2, s2⟩
    have e2 : s2.perFrame = s1.perFrame := by
      have h := rpCreate_perFrame env s1
      rw [h2] at h
      exact h
    rcases r2 with e | sem
    · simp [h1, h2, rpRelease, e2, e1]
    · rcases h3 : rpCreate env s2 with ⟨r3, s3⟩
      have e3 : s3.perFrame = s2.perFrame := by
        have h := rpCreate_perFrame env s2
        rw [h3] at h
        exact h
      rcases r3 with e | cb <;> simp [h1, h2, h3, rpRelease, e3, e2, e1]

/-- Helper for C7/C8: `PerFrame::new` only adds to the release log. -/
theorem perFrameNew_released_mono (env : RPEnv) (s : RPState) (x : ResKind × Nat)
    (hx : x ∈ s.released) : x ∈ (PerFrame.new env s).2.released := by
  unfold PerFrame.new
  rcases h1 : rpCreate env s with ⟨r1, s1⟩
  have e1 : s1.released = s.released := by
    have h := rpCreate_released env s
    rw [h1] at h
    exact h
  rcases r1 with e | fence
  · simp [h1, e1, hx]
  · rcases h2 : rpCreate env s1 with ⟨r2, s2⟩
    have e2 : s2.released = s1.released := by
      have h := rpCreate_released env s1
      rw [h2] at h
      exact h
    rcases r2 with e | sem
    · simp [h1, h2, rpRelease, e2, e1]
      exact Or.inl hx
    · rcases h3 : rpCreate env s2 with ⟨r3, s3⟩
      have e3 : s3.released = s2.released := by
        have h := rpCreate_released env s2
        rw [h3] at h
        exact h
      rcases r3 with e | cb
      · simp [h1, h2, h3, rpRelease, e3, e2, e1]
        exact Or.inl hx
      · simp [h1, h2, h3, e3, e2, e1, hx]

/-- Helper for C7: a freshly created per-frame record has its fence created
signaled and no framebuffer. -/
theorem perFrameNew_ok_flags (env : RPEnv) (s : RPState) (pf : PerFrame)
    (h : (PerFrame.new env s).1 = .ok pf) :
    pf.fenceCreatedSignaled = true ∧ pf.framebuffer = 0 := by
  unfold PerFrame.new at h
  rcases h1 : rpCreate env s with ⟨r1, s1⟩
  rcases r1 with e | fence
  · simp [h1] at h
  · rcases h2 : rpCreate env s1 with ⟨r2, s2⟩
    rcases r2 with e | sem
    · simp [h1, h2] at h
    · rcases h3 : rpCreate env s2 with ⟨r3, s3⟩
      rcases r3 with e | cb
      · simp [h1, h2, h3] at h
      · simp only [h1, h2, h3, Except.ok.injEq] at h
        rw [← h]
        exact ⟨rfl, rfl⟩

/-- Helper for C7/C8: destroying a frame never touches the per-frame vector. -/
theorem destroy_perFrame (pf : PerFrame) (s : RPState) :
    (pf.destroy s).perFrame = s.perFrame := by
  unfold PerFrame.destroy
  split_ifs <;> rfl

/-- Helper for C7: destroying a frame only adds to the release log. -/
theorem destroy_released_mono (pf : PerFrame) (s : RPState) (x : ResKind × Nat)
    (hx : x ∈ s.released) : x ∈ (pf.destroy s).released := by
  unfold PerFrame.destroy
  split_ifs <;> simp [rpRelease] <;> tauto

/-- Helper for C7: destroying a frame releases its fence, semaphore, command
buffer, and (when present) its framebuffer. -/
theorem destroy_released_mem (pf : PerFrame) (s : RPState) :
    (ResKind.fence, pf.fence) ∈ (pf.destroy s).released
  ∧ (ResKind.semaphore, pf.semaphore) ∈ (pf.destroy s).released
  ∧ (ResKind.commandBuffer, pf.commandBuffer) ∈ (pf.destroy s).released
  ∧ (pf.framebuffer ≠ 0 → (ResKind.framebuffer, pf.framebuffer) ∈ (pf.destroy s).released) := by
  unfold PerFrame.destroy
  split_ifs with h <;> simp [rpRelease] <;> tauto

/-- Helper for C7: the destroy fold over dropped frames keeps the per-frame
vector. -/
theorem foldDestroy_perFrame (pfs : List PerFrame) (s : RPState) :
    (pfs.foldl (fun s pf => pf.destroy s) s).perFrame = s.perFrame := by
  induction pfs generalizing s with
  | nil => rfl
  | cons pf rest ih => rw [List.foldl_cons, ih, destroy_perFrame]

/-- Helper for C7: the destroy fold only adds to the release log. -/
theorem foldDestroy_released_mono (pfs : List PerFrame) (s : RPState) (x : ResKind × Nat)
    (hx : x ∈ s.released) : x ∈ (pfs.foldl (fun s pf => pf.destroy s) s).released := by
  induction pfs generalizing s with
  | nil => exact hx
  | cons pf rest ih => exact ih _ (destroy_released_mono pf s x hx)

/-- Helper for C7: every frame destroyed by the fold has its resources in the
release log. -/
theorem foldDestroy_released_mem (pfs : List PerFrame) (s : RPState) (pf : PerFrame)
    (hpf : pf ∈ pfs) :
    (ResKind.fence, pf.fence) ∈ (pfs.foldl (fun s pf => pf.destroy s) s).released
  ∧ (ResKind.semaphore, pf.semaphore) ∈
      (pfs.foldl (fun s pf => pf.destroy s) s).released
  ∧ (ResKind.commandBuffer, pf.commandBuffer) ∈
      (pfs.foldl (fun s pf => pf.destroy s) s).released
  ∧ (pf.framebuffer ≠ 0 →
      (ResKind.framebuffer, pf.framebuffer) ∈
        (pfs.foldl (fun s pf => pf.destroy s) s).released) := by
  induction pfs generalizing s with
  | nil => cases hpf
  | cons q rest ih =>
    rcases List.mem_cons.mp hpf with heq | hrest
    · subst heq
      rw [List.foldl_cons]
      obtain ⟨m1, m2, m3, m4⟩ := destroy_released_mem pf s
      exact ⟨foldDestroy_released_mono rest _ _ m1,
        foldDestroy_released_mono rest _ _ m2,
        foldDestroy_released_mono rest _ _ m3,
        fun hfb => foldDestroy_released_mono rest _ _ (m4 hfb)⟩
    · exact ih _ hrest

/-- Helper for C7: a successful growth loop appends exactly the requested number
of fresh frames, each with a signaled-created fence and no framebuffer, and
leaves the existing frames alone. -/
theorem growPerFrame_ok (env : RPEnv) (n : Nat) (s : RPState)
    (h : (growPerFrame env n s).1 = .ok ()) :
    ∃ pfs, (growPerFrame env n s).2.perFrame = s.perFrame ++ pfs
      ∧ pfs.length = n
      ∧ ∀ pf ∈ pfs, pf.fenceCreatedSignaled = true ∧ pf.framebuffer = 0 := by
  induction n generalizing s with
  | zero => exact ⟨[], by simp [growPerFrame], rfl, by simp⟩
  | succ n ih =>
    unfold growPerFrame at h ⊢
    rcases h1 : PerFrame.new env s with ⟨r1, s1⟩
    rcases r1 with e | pf
    · simp [h1] at h
    · simp only [h1] at h ⊢
      have hpf1 : s1.perFrame = s.perFrame := by
        have hh := perFrameNew_perFrame env s
        rw [h1] at hh
        exact hh
      have hflags : pf.fenceCreatedSignaled = true ∧ pf.framebuffer = 0 := by
        apply perFrameNew_ok_flags env s pf
        rw [h1]
      obtain ⟨pfs, hperm, hlen, hall⟩ := ih _ h
      refine ⟨pf :: pfs, ?_, by simp [hlen], ?_⟩
      · rw [hperm]
        simp [hpf1]
      · intro q hq
        rcases List.mem_cons.mp hq with rfl | hq2
        · exact hflags
        · exact hall q hq2

/-- Helper for C7: the growth loop only adds to the release log. -/
theorem growPerFrame_released_mono (env : RPEnv) (n : Nat) (s : RPState)
    (x : ResKind × Nat) (hx : x ∈ s.released) :
    x ∈ (growPerFrame env n s).2.released := by
  induction n generalizing s with
  | zero => exact hx
  | succ n ih =>
    unfold growPerFrame
    rcases h1 : PerFrame.new env s with ⟨r1, s1⟩
    have hrel : x ∈ s1.released := by
      have hh := perFrameNew_released_mono env s x hx
      rw [h1] at hh
      exact hh
    rcases r1 with e | pf
    · exact hrel
    · exact ih _ hrel

/-- Helper for C7: a successful resize leaves exactly `newLen` frames. -/
theorem resizePerFrame_ok_length (env : RPEnv) (newLen : Nat) (s : RPState)
    (h : (resizePerFrame env newLen s).1 = .ok ()) :
    (resizePerFrame env newLen s).2.perFrame.length = newLen := by
  unfold resizePerFrame at h ⊢
  split_ifs at h ⊢ with h1 h2
  · simp only []
    rw [foldDestroy_perFrame]
    simp
    omega
  · simp only []
    omega
  · obtain ⟨pfs, hperm, hlen, _⟩ := growPerFrame_ok env _ s h
    rw [hperm]
    simp [hlen]
    omega

/-- Helper for C7: shrinking destroys every dropped frame's resources. -/
theorem resizePerFrame_shrink_mem (env : RPEnv) (newLen : Nat) (s : RPState)
    (hlt : newLen < s.perFrame.length) (pf : PerFrame)
    (hpf : pf ∈ s.perFrame.drop newLen) :
    (ResKind.fence, pf.fence) ∈ (resizePerFrame env newLen s).2.released
  ∧ (ResKind.semaphore, pf.semaphore) ∈ (resizePerFrame env newLen s).2.released
  ∧ (ResKind.commandBuffer, pf.commandBuffer) ∈ (resizePerFrame env newLen s).2.released
  ∧ (pf.framebuffer ≠ 0 →
      (ResKind.framebuffer, pf.framebuffer) ∈ (resizePerFrame env newLen s).2.released) := by
  unfold resizePerFrame
  rw [if_pos hlt]
  exact foldDestroy_released_mem _ _ pf hpf

/-- Helper for C7: growing appends fresh frames after the existing ones. -/
theorem resizePerFrame_grow (env : RPEnv) (newLen : Nat) (s : RPState)
    (hgt : s.perFrame.length < newLen) (h : (resizePerFrame env newLen s).1 = .ok ()) :
    ∃ pfs, (resizePerFrame env newLen s).2.perFrame = s.perFrame ++ pfs
      ∧ ∀ pf ∈ pfs, pf.fenceCreatedSignaled = true := by
  unfold resizePerFrame at h ⊢
  rw [if_neg (by omega), if_neg (by omega)] at h ⊢
  obtain ⟨pfs, hperm, _, hall⟩ := growPerFrame_ok env _ s h
  exact ⟨pfs, hperm, fun pf hpf => (hall pf hpf).1⟩

/-- Helper for C7: the resize step only adds to the release log. -/
theorem resizePerFrame_released_mono (env : RPEnv) (newLen : Nat) (s : RPState)
    (x : ResKind × Nat) (hx : x ∈ s.released) :
    x ∈ (resizePerFrame env newLen s).2.released := by
  unfold resizePerFrame
  split_ifs with h1 h2
  · exact foldDestroy_released_mono _ _ x hx
  · exact hx
  · exact growPerFrame_released_mono env _ _ x hx

/-- Helper for C7/C8: the view-creation loop never touches the per-frame
vector. -/
theorem outputCreateViews_perFrame (env : RPEnv) (imgs : List Nat) (s : RPState) :
    (outputCreateViews env imgs s).2.perFrame = s.perFrame := by
  induction imgs generalizing s with
  | nil => rfl
  | cons i rest ih =>
    unfold outputCreateViews
    rcases h1 : rpCreate env s with ⟨r1, s1⟩
    have e1 : s1.perFrame = s.perFrame := by
      have hh := rpCreate_perFrame env s
      rw [h1] at hh
      exact hh
    rcases r1 with e | v
    · exact e1
    · rw [ih]
      exact e1

/-- Helper for C7: the view-creation loop only adds to the release log. -/
theorem outputCreateViews_released_mono (env : RPEnv) (imgs : List Nat) (s : RPState)
    (x : ResKind × Nat) (hx : x ∈ s.released) :
    x ∈ (outputCreateViews env imgs s).2.released := by
  induction imgs generalizing s with
  | nil => exact hx
  | cons i rest ih =>
    unfold outputCreateViews
    rcases h1 : rpCreate env s with ⟨r1, s1⟩
    have e1 : s1.released = s.released := by
      have hh := rpCreate_released env s
      rw [h1] at hh
      exact hh
    rcases r1 with e | v
    · rw [e1]
      exact hx
    · apply ih
      simp [e1, hx]

/-- Helper for C7/C8: the attachment notification never touches the per-frame
vector. -/
theorem outputNotifyChanged_perFrame (env : RPEnv) (info : ImagesInfo) (s : RPState) :
    (outputNotifyChanged env info s).2.perFrame = s.perFrame := by
  unfold outputNotifyChanged
  split_ifs
  · rfl
  · exact outputCreateViews_perFrame env info.images s

/-- Helper for C7: the attachment notification only adds to the release log. -/
theorem outputNotifyChanged_released_mono (env : RPEnv) (info : ImagesInfo) (s : RPState)
    (x : ResKind × Nat) (hx : x ∈ s.released) :
    x ∈ (outputNotifyChanged env info s).2.released := by
  unfold outputNotifyChanged
  split_ifs
  · exact hx
  · exact outputCreateViews_released_mono env info.images s x hx

/-- Helper for C7/C8: placing a framebuffer never touches the per-frame vector. -/
theorem placeFramebuffer_perFrame (env : RPEnv) (pf : PerFrame) (s : RPState) :
    (PerFrame.placeFramebuffer env pf s).2.perFrame = s.perFrame := by
  unfold PerFrame.placeFramebuffer
  rcases h1 : rpCreate env s with ⟨r1, s1⟩
  have e1 : s1.perFrame = s.perFrame := by
    have hh := rpCreate_perFrame env s
    rw [h1] at hh
    exact hh
  rcases r1 with e | fb <;> exact e1

/-- Helper for C7: placing a framebuffer only adds to the release log. -/
theorem placeFramebuffer_released_mono (env : RPEnv) (pf : PerFrame) (s : RPState)
    (x : ResKind × Nat) (hx : x ∈ s.released) :
    x ∈ (PerFrame.placeFramebuffer env pf s).2.released := by
  unfold PerFrame.placeFramebuffer
  rcases h1 : rpCreate env s with ⟨r1, s1⟩
  have e1 : s1.released = s.released := by
    have hh := rpCreate_released env s
    rw [h1] at hh
    exact hh
  rcases r1 with e | fb <;> simp [e1, hx]

/-- Helper for C7/C8: a successfully placed framebuffer is live (nonzero) and
every other field of the frame is untouched. -/
theorem placeFramebuffer_ok (env : RPEnv) (pf : PerFrame) (s : RPState) (pf2 : PerFrame)
    (h : (PerFrame.placeFramebuffer env pf s).1 = .ok pf2) :
    pf2.framebuffer ≠ 0
  ∧ pf2.fence = pf.fence ∧ pf2.semaphore = pf.semaphore
  ∧ pf2.commandBuffer = pf.commandBuffer
  ∧ pf2.fenceCreatedSignaled = pf.fenceCreatedSignaled := by
  unfold PerFrame.placeFramebuffer at h
  rcases h1 : rpCreate env s with ⟨r1, s1⟩
  rcases r1 with e | fb
  · simp [h1] at h
  · have hfb : fb ≠ 0 := rpCreate_ok_ne_zero env s fb (by rw [h1])
    simp only [h1, Except.ok.injEq] at h
    rw [← h]
    exact ⟨hfb, rfl, rfl, rfl, rfl⟩

/-- Helper for C7/C8: the framebuffer-rebuilding loop preserves the number of
frames, on every path. -/
theorem rebuild_length (env : RPEnv) (pfs : List PerFrame) (s : RPState) :
    (rebuildFramebuffers env pfs s).2.1.length = pfs.length := by
  induction pfs generalizing s with
  | nil => rfl
  | cons pf rest ih =>
    unfold rebuildFramebuffers
    rcases h1 : PerFrame.placeFramebuffer env pf s with ⟨r1, s1⟩
    rcases r1 with e | pf2
    · simp
    · rcases h2 : rebuildFramebuffers env rest s1 with ⟨r2, rest2, s2⟩
      have hh := ih s1
      rw [h2] at hh
      simp only [h1, h2]
      simpa using hh

/-- Helper for C8: after a successful rebuild every frame holds a live
framebuffer. -/
theorem rebuild_ok_nonzero (env : RPEnv) (pfs : List PerFrame) (s : RPState)
    (h : (rebuildFramebuffers env pfs s).1 = .ok ()) :
    ∀ pf ∈ (rebuildFramebuffers env pfs s).2.1, pf.framebuffer ≠ 0 := by
  induction pfs generalizing s with
  | nil => simp [rebuildFramebuffers]
  | cons pf rest ih =>
    unfold rebuildFramebuffers at h ⊢
    rcases h1 : PerFrame.placeFramebuffer env pf s with ⟨r1, s1⟩
    rcases r1 with e | pf2
    · simp [h1] at h
    · rcases h2 : rebuildFramebuffers env rest s1 with ⟨r2, rest2, s2⟩
      simp only [h1, h2] at h ⊢
      intro q hq
      rcases List.mem_cons.mp hq with rfl | hq2
      · exact (placeFramebuffer_ok env pf s q (by rw [h1])).1
      · have hh := ih s1 (by rw [h2]; exact h)
        rw [h2] at hh
        exact hh q hq2

/-- Helper for C7: a successful rebuild changes only the framebuffer of each
frame; in particular the signaled-fence-creation flags are unchanged, frame by
frame. -/
theorem rebuild_ok_flags (env : RPEnv) (pfs : List PerFrame) (s : RPState)
    (h : (rebuildFramebuffers env pfs s).1 = .ok ()) :
    (rebuildFramebuffers env pfs s).2.1.map (fun pf => pf.fenceCreatedSignaled) =
      pfs.map (fun pf => pf.fenceCreatedSignaled) := by
  induction pfs generalizing s with
  | nil => rfl
  | cons pf rest ih =>
    unfold rebuildFramebuffers at h ⊢
    rcases h1 : PerFrame.placeFramebuffer env pf s with ⟨r1, s1⟩
    rcases r1 with e | pf2
    · simp [h1] at h
    · rcases h2 : rebuildFramebuffers env rest s1 with ⟨r2, rest2, s2⟩
      simp only [h1, h2] at h ⊢
      have hflag := (placeFramebuffer_ok env pf s pf2 (by rw [h1])).2.2.2.2
      have hh := ih s1 (by rw [h2]; exact h)
      rw [h2] at hh
      simp [hflag, hh]

/-- Helper for C7: the rebuild loop only adds to the release log. -/
theorem rebuild_released_mono (env : RPEnv) (pfs : List PerFrame) (s : RPState)
    (x : ResKind × Nat) (hx : x ∈ s.released) :
    x ∈ (rebuildFramebuffers env pfs s).2.2.released := by
  induction pfs generalizing s with
  | nil => exact hx
  | cons pf rest ih =>
    unfold rebuildFramebuffers
    rcases h1 : PerFrame.placeFramebuffer env pf s with ⟨r1, s1⟩
    have e1 : x ∈ s1.released := by
      have hh := placeFramebuffer_released_mono env pf s x hx
      rw [h1] at hh
      exact hh
    rcases r1 with e | pf2
    · exact e1
    · rcases h2 : rebuildFramebuffers env rest s1 with ⟨r2, rest2, s2⟩
      have hh := ih s1 e1
      rw [h2] at hh
      simp only [h1, h2]
      exact hh

/-- Helper for C7/C8: everything a successful `notify_new_images` guarantees about
the resulting per-frame vector and release log: the vector length matches the new
image count, every frame holds a live framebuffer, a shrink has destroyed the
dropped frames' resources, and a growth has created the new frames with signaled
fences. -/
theorem notifyNewImages_ok_spec (env : RPEnv) (info : ImagesInfo) (s : RPState)
    (h : (notifyNewImages env info s).1 = .ok ()) :
    (notifyNewImages env info s).2.perFrame.length = info.images.length
  ∧ (∀ pf ∈ (notifyNewImages env info s).2.perFrame, pf.framebuffer ≠ 0)
  ∧ (info.images.length < s.perFrame.length →
      ∀ pf ∈ s.perFrame.drop info.images.length,
        (ResKind.fence, pf.fence) ∈ (notifyNewImages env info s).2.released
        ∧ (ResKind.semaphore, pf.semaphore) ∈ (notifyNewImages env info s).2.released
        ∧ (ResKind.commandBuffer, pf.commandBuffer) ∈
            (notifyNewImages env info s).2.released
        ∧ (pf.framebuffer ≠ 0 →
            (ResKind.framebuffer, pf.framebuffer) ∈ (notifyNewImages env info s).2.released))
  ∧ (s.perFrame.length < info.images.length →
      ∀ pf ∈ (notifyNewImages env info s).2.perFrame.drop s.perFrame.length,
        pf.fenceCreatedSignaled = true) := by
  unfold notifyNewImages at h ⊢
  rcases hr : resizePerFrame env info.images.length
      { s with
        outputInfo := { width := info.width, height := info.height, format := info.format } }
    with ⟨r1, s1⟩
  rcases r1 with e | u
  · simp [hr] at h
  · cases u
    rcases hn : outputNotifyChanged env info s1 with ⟨r2, s2⟩
    rcases r2 with e | u2
    · simp [hr, hn] at h
    · cases u2
      rcases hb : rebuildFramebuffers env s2.perFrame s2 with ⟨r3, pfs, s3⟩
      simp only [hr, hn, hb] at h ⊢
      -- from success, the rebuild result is ok
      have hok : (rebuildFramebuffers env s2.perFrame s2).1 = .ok () := by
        rw [hb]
        exact h
      -- the resize succeeded
      have hrok : (resizePerFrame env info.images.length
          { s with outputInfo :=
              { width := info.width, height := info.height, format := info.format } }).1 =
          .ok () := by
        rw [hr]
      -- frame-vector bookkeeping
      have hs2 : s2.perFrame = s1.perFrame := by
        have hh := outputNotifyChanged_perFrame env info s1
        rw [hn] at hh
        exact hh
      have hlen1 : s1.perFrame.length = info.images.length := by
        have hh := resizePerFrame_ok_length env info.images.length _ hrok
        rw [hr] at hh
        exact hh
      have hlenp : pfs.length = s2.perFrame.length := by
        have hh := rebuild_length env s2.perFrame s2
        rw [hb] at hh
        exact hh
      refine ⟨by simp [hlenp, hs2, hlen1], ?_, ?_, ?_⟩
      · intro pf hpf
        have hh := rebuild_ok_nonzero env s2.perFrame s2 hok
        rw [hb] at hh
        exact hh pf hpf
      · intro hlt pf hpf
        have hmem := resizePerFrame_shrink_mem env info.images.length
          { s with outputInfo :=
              { width := info.width, height := info.height, format := info.format } }
          hlt pf hpf
        rw [hr] at hmem
        have lift : ∀ x : ResKind × Nat, x ∈ s1.released → x ∈ s3.released := by
          intro x hx
          have h1 := outputNotifyChanged_released_mono env info s1 x hx
          rw [hn] at h1
          have h2 := rebuild_released_mono env s2.perFrame s2 x h1
          rw [hb] at h2
          exact h2
        exact ⟨lift _ hmem.1, lift _ hmem.2.1, lift _ hmem.2.2.1,
          fun hfb => lift _ (hmem.2.2.2 hfb)⟩
      · intro hgt pf hpf
        obtain ⟨newPfs, hperm, hall⟩ := resizePerFrame_grow env info.images.length
          { s with outputInfo :=
              { width := info.width, height := info.height, format := info.format } }
          hgt (by rw [hr])
        rw [hr] at hperm
        -- the flag list is unchanged by the rebuild
        have hflags := rebuild_ok_flags env s2.perFrame s2 hok
        rw [hb] at hflags
        have hmap : pfs.map (fun pf => pf.fenceCreatedSignaled) =
            (s.perFrame ++ newPfs).map (fun pf => pf.fenceCreatedSignaled) := by
          rw [hflags, hs2, hperm]
        have hmem2 : pf.fenceCreatedSignaled ∈
            (pfs.map (fun pf => pf.fenceCreatedSignaled)).drop s.perFrame.length := by
          rw [← List.map_drop]
          exact List.mem_map_of_mem _ hpf
        rw [hmap, List.map_append, List.drop_left' (by simp)] at hmem2
        obtain ⟨q, hq, hqe⟩ := List.mem_map.mp hmem2
        rw [← hqe]
        exact hall q hq

/-- C7: after a successful `notify_new_images(info)` the per-frame vector has
exactly `info.images.len()` records; a shrink has released the dropped frames'
framebuffer (when present), fence, semaphore, and command buffer before
returning; a growth has created every new frame with its fence already
signaled. -/
theorem c7_per_frame_resize (env : RPEnv) (info : ImagesInfo) (s : RPState)
    (h : (notifyNewImages env info s).1 = .ok ()) :
    (notifyNewImages env info s).2.perFrame.length = info.images.length
  ∧ (info.images.length < s.perFrame.length →
      ∀ pf ∈ s.perFrame.drop info.images.length,
        (ResKind.fence, pf.fence) ∈ (notifyNewImages env info s).2.released
        ∧ (ResKind.semaphore, pf.semaphore) ∈ (notifyNewImages env info s).2.released
        ∧ (ResKind.commandBuffer, pf.commandBuffer) ∈
            (notifyNewImages env info s).2.released
        ∧ (pf.framebuffer ≠ 0 →
            (ResKind.framebuffer, pf.framebuffer) ∈ (notifyNewImages env info s).2.released))
  ∧ (s.perFrame.length < info.images.length →
      ∀ pf ∈ (notifyNewImages env info s).2.perFrame.drop s.perFrame.length,
        pf.fenceCreatedSignaled = true) :=
  ⟨(notifyNewImages_ok_spec env info s h).1,
   (notifyNewImages_ok_spec env info s h).2.2.1,
   (notifyNewImages_ok_spec env info s h).2.2.2⟩

/-- Witness for C7: shrinking from three frames to two images leaves two frames
and releases the dropped frame's fence (handle 43). -/
theorem c7_per_frame_resize_witness :
    (notifyNewImages okRPEnv sampleImagesInfo sampleRP).2.perFrame.length =
      sampleImagesInfo.images.length
  ∧ (ResKind.fence, 43) ∈ (notifyNewImages okRPEnv sampleImagesInfo sampleRP).2.released :=
  ⟨(c7_per_frame_resize okRPEnv sampleImagesInfo sampleRP rfl).1,
   ((c7_per_frame_resize okRPEnv sampleImagesInfo sampleRP rfl).2.1 (by decide)
      { framebuffer := 63, commandBuffer := 33, fence := 43, semaphore := 53,
        fenceCreatedSignaled := true } (by decide)).1⟩

/-- C8: after `notify_new_images(info)` followed by `notify_destroy_images()`,
every per-frame record's framebuffer is null; after a subsequent successful
`notify_new_images(info2)` the number of live framebuffers equals
`info2.images.len()` exactly. -/
theorem c8_image_notification_round_trip (env env2 : RPEnv) (info info2 : ImagesInfo)
    (s : RPState) (h1 : (notifyNewImages env info s).1 = .ok ()) :
    (∀ pf ∈ (notifyDestroyImages (notifyNewImages env info s).2).perFrame,
        pf.framebuffer = 0)
  ∧ ((notifyNewImages env2 info2 (notifyDestroyImages (notifyNewImages env info s).2)).1 =
        .ok () →
      ((notifyNewImages env2 info2
            (notifyDestroyImages (notifyNewImages env info s).2)).2.perFrame.countP
          (fun pf => pf.framebuffer ≠ 0)) = info2.images.length) := by
  constructor
  · intro pf hpf
    unfold notifyDestroyImages at hpf
    simp only [List.mem_map] at hpf
    obtain ⟨q, hq, rfl⟩ := hpf
    rfl
  · intro h2
    obtain ⟨hlen, hnz, -, -⟩ := notifyNewImages_ok_spec env2 info2 _ h2
    rw [← hlen]
    apply List.countP_eq_length.mpr
    intro pf hpf
    simpa using hnz pf hpf

/-- Witness for C8: round trip through two images then four; the final live
framebuffer count is four. -/
theorem c8_image_notification_round_trip_witness :
    (∀ pf ∈ (notifyDestroyImages
          (notifyNewImages okRPEnv sampleImagesInfo sampleRP).2).perFrame,
        pf.framebuffer = 0)
  ∧ ((notifyNewImages okRPEnv sampleImagesInfo4
        (notifyDestroyImages
          (notifyNewImages okRPEnv sampleImagesInfo sampleRP).2)).2.perFrame.countP
        (fun pf => pf.framebuffer ≠ 0)) = sampleImagesInfo4.images.length :=
  ⟨(c8_image_notification_round_trip okRPEnv okRPEnv sampleImagesInfo sampleImagesInfo4
      sampleRP rfl).1,
   (c8_image_notification_round_trip okRPEnv okRPEnv sampleImagesInfo sampleImagesInfo4
      sampleRP rfl).2 rfl⟩

end Warm
